import Mathlib

/-!
# minios/mods/modlwip.c : the socket adaptation layer over the lwIP raw API

A shallow embedding of the socket object of `modlwip.c`, of the callbacks it
registers with the protocol engine, and of the facade operations built on
them.  The protocol engine (lwIP), the clock and the sleep primitive are
external: they are represented by a scripted mock (`World`) that records every
call the module makes and that decides, pump by pump, which callbacks fire.
-/

namespace Modlwip

/-! ## Engine-side values -/

abbrev byte := Nat
abbrev err_t := Int
abbrev ip_addr_t := Nat

/-- Conversion of a C integer to `u16_t`. -/
def u16 (n : Int) : Nat := (n % 65536).toNat

/-- The `enum tcp_state` of lwIP (`lwip/tcp.h`); the module only compares with `LISTEN`. -/
inductive tcp_state
  | CLOSED | LISTEN | SYN_SENT | SYN_RCVD | ESTABLISHED | FIN_WAIT_1 | FIN_WAIT_2
  | CLOSE_WAIT | CLOSING | LAST_ACK | TIME_WAIT
deriving DecidableEq, Repr

/-- An engine control block as the module sees it through `socket->pcb` (a union of a
`tcp_pcb*` and a `udp_pcb*`, one pointer): its identity and the `state` field that
`lwip_socket_close` and `lwip_socket_accept` read.  A pcb is in `LISTEN` from its creation by
`tcp_listen_with_backlog` until it is closed, so the field is a property of the pointer. -/
structure pcb_t where
  id : Nat
  state : tcp_state
deriving DecidableEq, Repr

/-- A `struct pbuf` chain, by its contents: `tot_len` is the length of `payload`
(a `u16_t` in lwIP, so engine-made buffers have fewer than 65536 bytes). -/
structure pbuf where
  payload : List byte
deriving DecidableEq, Repr

def pbuf.tot_len (p : pbuf) : Nat := p.payload.length

/-- The lwIP primitive `pbuf_copy_partial(p, dataptr, len, offset)`: the bytes it copies out,
at most `len` of them, starting `offset` bytes into the chain; its return value is their
number. -/
def pbuf_copy_partial (p : pbuf) (len offset : Nat) : List byte :=
  (p.payload.drop offset).take len

/-- Modelled from the spec: the member `incoming` of `lwip_socket_obj_t`, declared in
`modlwip.h` (absent).  The spec's `inbox` and `pendingConnection` are "never both
meaningful"; the source stores them in one slot with two members, `incoming.pbuf` and
`incoming.connection` (`lwip_socket_close` reads `incoming.connection` under the guard
`incoming.pbuf != NULL`, and `lwip_socket_make_new` clears only `incoming.pbuf`). -/
inductive incoming_t
  | pbuf (p : pbuf)
  | connection (c : pcb_t)
deriving DecidableEq, Repr

/-! ## Constants -/

def ERR_OK : err_t := 0
def ERR_BUF : err_t := -2
def _ERR_BADF : err_t := -16

/-- Modelled from the spec: the socket states of `modlwip.h` (absent), in the order the
spec lists them (`NEW → CONNECTING → CONNECTED → PEER_CLOSED`); the source compares
`state >= STATE_CONNECTED` to mean CONNECTED or PEER_CLOSED and `state < 0` to mean error. -/
def STATE_NEW : Int := 0
def STATE_CONNECTING : Int := 1
def STATE_CONNECTED : Int := 2
def STATE_PEER_CLOSED : Int := 3

def MOD_NETWORK_AF_INET : Nat := 2
def MOD_NETWORK_SOCK_STREAM : Nat := 1
def MOD_NETWORK_SOCK_DGRAM : Nat := 2

/-! `errno.h` of the platform (Mini-OS numbering). -/
def EIO : Int := 5
def EBADF : Int := 9
def EAGAIN : Int := 11
def EWOULDBLOCK : Int := 11
def ENOMEM : Int := 12
def EINVAL : Int := 22
def EOPNOTSUPP : Int := 95
def EADDRINUSE : Int := 98
def ECONNABORTED : Int := 103
def ECONNRESET : Int := 104
def ENOBUFS : Int := 105
def ENOTCONN : Int := 107
def ETIMEDOUT : Int := 110
def EHOSTUNREACH : Int := 113
def EALREADY : Int := 114
def EINPROGRESS : Int := 115

/-- The table `error_lookup_table` for `LWIP_VERSION < 0x01040100`. -/
def error_lookup_table_pre141 : List Int :=
  [0, ENOMEM, ENOBUFS, EWOULDBLOCK, EHOSTUNREACH, EINPROGRESS, EINVAL, EWOULDBLOCK,
   ECONNABORTED, ECONNRESET, ENOTCONN, ENOTCONN, EIO, EADDRINUSE, -1, EALREADY, EBADF]

/-- The table `error_lookup_table` for `LWIP_VERSION >= 0x01040100`. -/
def error_lookup_table_141 : List Int :=
  [0, ENOMEM, ENOBUFS, EWOULDBLOCK, EHOSTUNREACH, EINPROGRESS, EINVAL, EWOULDBLOCK,
   EADDRINUSE, EALREADY, ECONNABORTED, ECONNRESET, ENOTCONN, ENOTCONN, EIO, -1, EBADF]

/-- The table selected at build time by `LWIP_VERSION`. -/
def error_lookup_table (pre141 : Bool) : List Int :=
  if pre141 then error_lookup_table_pre141 else error_lookup_table_141

/-- The C expression `error_lookup_table[i]`: `none` when `i` is outside the 17 entries. -/
def error_lookup (pre141 : Bool) (i : Int) : Option Int :=
  if i < 0 then none else (error_lookup_table pre141).get? i.toNat

/-! ## The socket object -/

/-- Modelled from the spec: `lwip_socket_obj_t` of `modlwip.h` (absent), with the fields the
source uses.  `pcb = none` is the NULL handle, `incoming = none` the NULL slot,
`callback = none` is `MP_OBJ_NULL`.  `timeout` follows the spec (`-1` block forever, `0`
non-blocking, `> 0` milliseconds); `leftover_count` holds `u16_t` values. -/
structure lwip_socket_obj_t where
  domain : Nat
  type : Nat
  pcb : Option pcb_t
  incoming : Option incoming_t
  callback : Option Nat
  peer : ip_addr_t
  peer_port : Nat
  timeout : Int
  leftover_count : Nat
  state : Int
deriving DecidableEq, Repr

/-! ## The mock engine -/

/-- The handlers the module installs with `tcp_recv`. -/
inductive recv_handler
  | _lwip_tcp_recv
  | _lwip_tcp_recv_unaccepted
deriving DecidableEq, Repr

/-- A call from the module into the engine, the HAL or the embedding runtime. -/
inductive Call
  | poll_sockets
  | mp_hal_delay_ms (ms : Nat)
  | pbuf_free (p : incoming_t)
  | tcp_recved (pcb : pcb_t) (len : Nat)
  | tcp_write (pcb : pcb_t) (data : List byte)
  | tcp_close (pcb : pcb_t)
  | tcp_abort (p : incoming_t)
  | udp_remove (pcb : pcb_t)
  | tcp_recv (pcb : pcb_t) (handler : recv_handler)
  | exec_user_callback (cb : Nat)
  | tcp_connect (pcb : pcb_t) (dest : ip_addr_t) (port : Nat)
  | udp_connect (pcb : pcb_t) (dest : ip_addr_t) (port : Nat)
  | tcp_bind (pcb : pcb_t) (ip : ip_addr_t) (port : Nat)
  | udp_bind (pcb : pcb_t) (ip : ip_addr_t) (port : Nat)
  | tcp_arg (pcb : pcb_t)
  | tcp_err (pcb : pcb_t)
  | tcp_accepted (listener : pcb_t)
deriving DecidableEq, Repr

/-- An engine callback on the socket, with its arguments. -/
inductive Callback
  | udp_incoming (p : pbuf) (addr : ip_addr_t) (port : Nat)
  | tcp_error (err : err_t)
  | tcp_connected (err : err_t)
  | tcp_accept (newpcb : pcb_t) (err : err_t)
  | tcp_recv (p : Option pbuf) (err : err_t)
deriving DecidableEq, Repr

/-- One pump of the stack as this socket sees it: the callbacks that fire, the
milliseconds it takes, and the free send space (`tcp_sndbuf`) it leaves. -/
structure Pump where
  events : List Callback
  elapsed : Nat
  snd_buf : Nat
deriving DecidableEq, Repr

/-- The socket together with the scripted engine around it.
* `pre141`: which `error_lookup_table` was compiled in;
* `now`: `mp_hal_ticks_ms()`;
* `snd_buf`: `tcp_sndbuf(socket->pcb.tcp)`;
* `pumps`: what the coming pumps (`poll_sockets()`, or the time spent in
  `mp_hal_delay_ms`) will do; a wait that needs a pump when none is left is `pending`;
* `status`: the codes the coming engine primitives with an `err_t` result return
  (`ERR_OK` once the script is used up);
* `calls`: every call made so far, oldest first. -/
structure World where
  socket : lwip_socket_obj_t
  pre141 : Bool
  now : Nat
  snd_buf : Nat
  pumps : List Pump
  status : List err_t
  calls : List Call
deriving DecidableEq, Repr

/-- Why a run left defined behaviour. -/
inductive Fault
  | assert_failed
  | index_out_of_range
  | null_deref
  | wrong_member
  | uninitialized
deriving DecidableEq, Repr

/-- The two `ValueError`s that `lwip_addif` raises. -/
inductive ValueError
  | max_interfaces
  | no_suitable_interface
deriving DecidableEq, Repr

/-- How an operation ends: a value; `-1` with `*_errno` set, or `nlr_raise(OSError(errno))`;
`mp_not_implemented`; a `ValueError`; undefined behaviour; or a wait that outlasts the
script. -/
inductive Result (α : Type)
  | ok (v : α)
  | error (errno : Int)
  | not_implemented
  | value_error (e : ValueError)
  | fault (f : Fault)
  | pending
deriving DecidableEq, Repr

def World.log (w : World) (c : Call) : World :=
  { w with calls := w.calls ++ [c] }

def World.setSocket (w : World) (s : lwip_socket_obj_t) : World :=
  { w with socket := s }

/-- The result code of the next engine primitive, and the world with the script advanced. -/
def World.next_status (w : World) : err_t × World :=
  match w.status with
  | [] => (ERR_OK, w)
  | e :: rest => (e, { w with status := rest })

/-- The lwIP macro `tcp_sndbuf(pcb)`. -/
def tcp_sndbuf (w : World) : Nat := w.snd_buf

/-! ## Callback functions for the lwIP raw API -/

/-- The call `mp_call_function_1_protected(socket->callback, socket)` when a callback is set.
The callable belongs to the embedding runtime: the call is recorded, and it is taken not to
touch the socket. -/
def exec_user_callback (w : World) : World :=
  match w.socket.callback with
  | none => w
  | some cb => w.log (Call.exec_user_callback cb)

def _lwip_udp_incoming (w : World) (p : pbuf) (addr : ip_addr_t) (port : Nat) : World :=
  if w.socket.incoming ≠ none then
    w.log (Call.pbuf_free (incoming_t.pbuf p))
  else
    w.setSocket { w.socket with incoming := some (incoming_t.pbuf p), peer_port := port, peer := addr }

def _lwip_tcp_error (w : World) (err : err_t) : World :=
  w.setSocket { w.socket with state := err, pcb := none }

def _lwip_tcp_connected (w : World) (_err : err_t) : World × err_t :=
  (w.setSocket { w.socket with state := STATE_CONNECTED }, ERR_OK)

def _lwip_tcp_recv_unaccepted (w : World) (_p : Option pbuf) (_err : err_t) : World × err_t :=
  (w, ERR_BUF)

def _lwip_tcp_accept (w : World) (newpcb : pcb_t) (_err : err_t) : World × err_t :=
  let w1 := w.log (Call.tcp_recv newpcb recv_handler._lwip_tcp_recv_unaccepted)
  if w1.socket.incoming ≠ none then
    (w1, ERR_BUF)
  else
    (exec_user_callback (w1.setSocket { w1.socket with incoming := some (incoming_t.connection newpcb) }),
      ERR_OK)

def _lwip_tcp_recv (w : World) (p : Option pbuf) (_err : err_t) : World × err_t :=
  match p with
  | none =>
    (exec_user_callback (w.setSocket { w.socket with state := STATE_PEER_CLOSED }), ERR_OK)
  | some b =>
    if w.socket.incoming ≠ none then
      (w, ERR_BUF)
    else
      (exec_user_callback (w.setSocket { w.socket with incoming := some (incoming_t.pbuf b) }), ERR_OK)

/-! ## Pumping the stack -/

/-- The engine invokes one callback; the handler's return value goes back to the engine. -/
def deliver (w : World) (ev : Callback) : World :=
  match ev with
  | Callback.udp_incoming p addr port => _lwip_udp_incoming w p addr port
  | Callback.tcp_error err => _lwip_tcp_error w err
  | Callback.tcp_connected err => (_lwip_tcp_connected w err).1
  | Callback.tcp_accept newpcb err => (_lwip_tcp_accept w newpcb err).1
  | Callback.tcp_recv p err => (_lwip_tcp_recv w p err).1

/-- The function `poll_sockets()`: the next pump of the script runs (its callbacks fire in
order, the clock and the free send space move); `none` when the script is used up. -/
def poll_sockets (w : World) : Option World :=
  match w.pumps with
  | [] => none
  | p :: rest =>
    let w1 := p.events.foldl deliver ({ w with pumps := rest }.log Call.poll_sockets)
    some { w1 with now := w1.now + p.elapsed, snd_buf := p.snd_buf }

/-- The HAL call `mp_hal_delay_ms(ms)`: the callbacks of the next pump fire while the caller
sleeps, and the clock advances by `ms`; `none` when the script is used up. -/
def mp_hal_delay_ms (w : World) (ms : Nat) : Option World :=
  match w.pumps with
  | [] => none
  | p :: rest =>
    let w1 := p.events.foldl deliver ({ w with pumps := rest }.log (Call.mp_hal_delay_ms ms))
    some { w1 with now := w1.now + ms, snd_buf := p.snd_buf }

/-! ## Send and receive helpers -/

/-- The loop `for (retries = timeout / 100; retries--;) { mp_hal_delay_ms(100); if
(incoming.pbuf != NULL) break; }` of `lwip_udp_receive`. -/
def udp_receive_retry : Nat → World → Option World
  | 0, w => some w
  | retries + 1, w =>
    match mp_hal_delay_ms w 100 with
    | none => none
    | some w1 => if w1.socket.incoming ≠ none then some w1 else udp_receive_retry retries w1

/-- The loop `while (incoming.pbuf == NULL) poll_sockets();` of `lwip_udp_receive`. -/
def udp_receive_poll : Nat → World → Option World
  | 0, _ => none
  | fuel + 1, w =>
    if w.socket.incoming = none then
      match poll_sockets w with
      | none => none
      | some w1 => udp_receive_poll fuel w1
    else some w

/-- The tail of `lwip_udp_receive`, from `if (ip != NULL)` on: the bytes copied out with
the sender's address and port. -/
def udp_receive_copy (w : World) (len : Nat) : World × Result (List byte × ip_addr_t × Nat) :=
  match w.socket.incoming with
  | none => (w, Result.fault Fault.null_deref)
  | some (incoming_t.connection _) => (w, Result.fault Fault.wrong_member)
  | some (incoming_t.pbuf p) =>
    let result := pbuf_copy_partial p (u16 (if p.tot_len > len then len else p.tot_len)) 0
    let w1 := w.log (Call.pbuf_free (incoming_t.pbuf p))
    (w1.setSocket { w1.socket with incoming := none },
      Result.ok (result, w.socket.peer, w.socket.peer_port))

/-- Helper function for recv/recvfrom to handle UDP packets. -/
def lwip_udp_receive (w : World) (len : Nat) : World × Result (List byte × ip_addr_t × Nat) :=
  if w.socket.incoming = none then
    if w.socket.timeout ≠ -1 then
      match udp_receive_retry (w.socket.timeout.toNat / 100) w with
      | none => (w, Result.pending)
      | some w1 =>
        if w1.socket.incoming = none then (w1, Result.error ETIMEDOUT)
        else udp_receive_copy w1 len
    else
      match udp_receive_poll (w.pumps.length + 1) w with
      | none => (w, Result.pending)
      | some w1 => udp_receive_copy w1 len
  else udp_receive_copy w len

/-- The macro `STREAM_ERROR_CHECK(socket)`: `none` when the check lets the caller go on. -/
def STREAM_ERROR_CHECK {α : Type} (w : World) : Option (Result α) :=
  if w.socket.state < 0 then
    match error_lookup w.pre141 (-w.socket.state) with
    | some e => some (Result.error e)
    | none => some (Result.fault Fault.index_out_of_range)
  else if w.socket.pcb = none then some (Result.fault Fault.assert_failed)
  else none

/-- How a wait loop of the stream helpers ends. -/
inductive Wait
  | done (w : World) (available : Nat)
  | timedout (w : World)
  | fault (w : World) (f : Fault)
  | pending (w : World)
deriving DecidableEq, Repr

/-- The loop `while (state >= STATE_CONNECTED && (available = tcp_sndbuf(pcb)) < 16)` of
`lwip_tcp_send`; `available` keeps its last assigned value. -/
def tcp_send_wait : Nat → Nat → Nat → World → Wait
  | 0, _, _, w => Wait.pending w
  | fuel + 1, start, available, w =>
    if w.socket.state ≥ STATE_CONNECTED then
      match w.socket.pcb with
      | none => Wait.fault w Fault.null_deref
      | some _ =>
        let available1 := u16 (tcp_sndbuf w)
        if available1 < 16 then
          if w.socket.timeout ≠ -1 ∧ ((w.now - start : Nat) : Int) > w.socket.timeout then
            Wait.timedout w
          else
            match poll_sockets w with
            | none => Wait.pending w
            | some w1 => tcp_send_wait fuel start available1 w1
        else Wait.done w available1
    else Wait.done w available

/-- The tail of `lwip_tcp_send`, from `u16_t write_len = MIN(available, len)` on. -/
def tcp_send_write (w : World) (buf : List byte) (available : Nat) : World × Result Nat :=
  match w.socket.pcb with
  | none => (w, Result.fault Fault.null_deref)
  | some pcb =>
    let write_len := u16 (min available buf.length)
    let (err, w1) := (w.log (Call.tcp_write pcb (buf.take write_len))).next_status
    if err ≠ ERR_OK then
      match error_lookup w.pre141 (-err) with
      | some e => (w1, Result.error e)
      | none => (w1, Result.fault Fault.index_out_of_range)
    else
      ({ w1 with snd_buf := w1.snd_buf - write_len }, Result.ok write_len)

/-- Helper function for send/sendto to handle TCP packets.  A successful `tcp_write` of
`write_len` bytes takes that much from the free send space. -/
def lwip_tcp_send (w : World) (buf : List byte) : World × Result Nat :=
  match (STREAM_ERROR_CHECK w : Option (Result Nat)) with
  | some r => (w, r)
  | none =>
    let available := u16 (tcp_sndbuf w)
    if available = 0 then
      if w.socket.timeout = 0 then (w, Result.error EAGAIN)
      else
        match tcp_send_wait (w.pumps.length + 1) w.now available w with
        | Wait.pending w1 => (w1, Result.pending)
        | Wait.fault w1 f => (w1, Result.fault f)
        | Wait.timedout w1 => (w1, Result.error ETIMEDOUT)
        | Wait.done w1 available1 =>
          match (STREAM_ERROR_CHECK w1 : Option (Result Nat)) with
          | some r => (w1, r)
          | none => tcp_send_write w1 buf available1
    else tcp_send_write w buf available

/-- The loop `while (state == STATE_CONNECTED && incoming.pbuf == NULL)` of
`lwip_tcp_receive`. -/
def tcp_receive_wait : Nat → Nat → World → Wait
  | 0, _, w => Wait.pending w
  | fuel + 1, start, w =>
    if w.socket.state = STATE_CONNECTED ∧ w.socket.incoming = none then
      if w.socket.timeout ≠ -1 ∧ ((w.now - start : Nat) : Int) > w.socket.timeout then
        Wait.timedout w
      else
        match poll_sockets w with
        | none => Wait.pending w
        | some w1 => tcp_receive_wait fuel start w1
    else Wait.done w 0

/-- The tail of `lwip_tcp_receive`, from `assert(socket->pcb.tcp != NULL)` on. -/
def tcp_receive_copy (w : World) (len : Nat) : World × Result (List byte) :=
  match w.socket.pcb with
  | none => (w, Result.fault Fault.assert_failed)
  | some pcb =>
    match w.socket.incoming with
    | none => (w, Result.fault Fault.null_deref)
    | some (incoming_t.connection _) => (w, Result.fault Fault.wrong_member)
    | some (incoming_t.pbuf p) =>
      let leftover := if w.socket.leftover_count = 0 then p.tot_len else w.socket.leftover_count
      let result := pbuf_copy_partial p (u16 (if leftover ≥ len then len else leftover))
        (u16 ((p.tot_len : Int) - leftover))
      let w1 :=
        if leftover > len then
          w.setSocket { w.socket with leftover_count := leftover - len }
        else
          let w0 := w.log (Call.pbuf_free (incoming_t.pbuf p))
          w0.setSocket { w0.socket with incoming := none, leftover_count := 0 }
      (w1.log (Call.tcp_recved pcb result.length), Result.ok result)

/-- Helper function for recv/recvfrom to handle TCP packets. -/
def lwip_tcp_receive (w : World) (len : Nat) : World × Result (List byte) :=
  match (STREAM_ERROR_CHECK w : Option (Result (List byte))) with
  | some r => (w, r)
  | none =>
    if w.socket.incoming = none then
      if w.socket.timeout = 0 then
        if w.socket.state = STATE_PEER_CLOSED then (w, Result.ok [])
        else (w, Result.error EAGAIN)
      else
        match tcp_receive_wait (w.pumps.length + 1) w.now w with
        | Wait.pending w1 => (w1, Result.pending)
        | Wait.fault w1 f => (w1, Result.fault f)
        | Wait.timedout w1 => (w1, Result.error ETIMEDOUT)
        | Wait.done w1 _ =>
          if w1.socket.state = STATE_PEER_CLOSED then
            if w1.socket.incoming = none then (w1, Result.ok [])
            else tcp_receive_copy w1 len
          else if w1.socket.state ≠ STATE_CONNECTED then
            if w1.socket.state < 0 then
              match error_lookup w1.pre141 (-w1.socket.state) with
              | some e => (w1, Result.error e)
              | none => (w1, Result.fault Fault.index_out_of_range)
            else (w1, Result.fault Fault.assert_failed)
          else tcp_receive_copy w1 len
    else tcp_receive_copy w len

/-! ## The socket functions provided by lwip.socket -/

/-- The `switch (socket->type)` of `lwip_socket_close`: whether the socket is a listener,
and the world after the handle is shut down. -/
def close_shutdown (w : World) (pcb : pcb_t) : Bool × World :=
  if w.socket.type = MOD_NETWORK_SOCK_STREAM then
    let socket_is_listener := decide (pcb.state = tcp_state.LISTEN)
    let (err, w0) := (w.log (Call.tcp_close pcb)).next_status
    if err ≠ ERR_OK then
      (socket_is_listener, w0.log (Call.tcp_abort (incoming_t.connection pcb)))
    else (socket_is_listener, w0)
  else if w.socket.type = MOD_NETWORK_SOCK_DGRAM then
    (false, w.log (Call.udp_remove pcb))
  else (false, w)

/-- The tail of `lwip_socket_close`, from `socket->pcb.tcp = NULL` on. -/
def close_release (w1 : World) (socket_is_listener : Bool) : World :=
  let w2 := w1.setSocket { w1.socket with pcb := none, state := _ERR_BADF }
  match w2.socket.incoming with
  | none => w2
  | some x =>
    let w3 :=
      if !socket_is_listener then w2.log (Call.pbuf_free x) else w2.log (Call.tcp_abort x)
    w3.setSocket { w3.socket with incoming := none }

def lwip_socket_close (w : World) : World :=
  match w.socket.pcb with
  | none => w
  | some pcb => close_release (close_shutdown w pcb).2 (close_shutdown w pcb).1

def lwip_socket_check_connected (w : World) : World × Result Unit :=
  match w.socket.pcb with
  | some _ => (w, Result.ok ())
  | none =>
    match error_lookup w.pre141 (-w.socket.state) with
    | none => (w, Result.fault Fault.index_out_of_range)
    | some e => (w.setSocket { w.socket with state := _ERR_BADF }, Result.error e)

def lwip_socket_recv (w : World) (len : Nat) : World × Result (List byte) :=
  match lwip_socket_check_connected w with
  | (w1, Result.error e) => (w1, Result.error e)
  | (w1, Result.fault f) => (w1, Result.fault f)
  | (w1, Result.not_implemented) => (w1, Result.not_implemented)
  | (w1, Result.value_error e) => (w1, Result.value_error e)
  | (w1, Result.pending) => (w1, Result.pending)
  | (w1, Result.ok _) =>
    if w1.socket.type = MOD_NETWORK_SOCK_STREAM then lwip_tcp_receive w1 len
    else if w1.socket.type = MOD_NETWORK_SOCK_DGRAM then
      match lwip_udp_receive w1 len with
      | (w2, Result.ok (data, _, _)) => (w2, Result.ok data)
      | (w2, Result.error e) => (w2, Result.error e)
      | (w2, Result.fault f) => (w2, Result.fault f)
      | (w2, Result.not_implemented) => (w2, Result.not_implemented)
      | (w2, Result.value_error e) => (w2, Result.value_error e)
      | (w2, Result.pending) => (w2, Result.pending)
    else (w1, Result.ok [])

/-- The result is the pair `(bytes, (ip, port))` the function returns. -/
def lwip_socket_recvfrom (w : World) (len : Nat) : World × Result (List byte × ip_addr_t × Nat) :=
  match lwip_socket_check_connected w with
  | (w1, Result.error e) => (w1, Result.error e)
  | (w1, Result.fault f) => (w1, Result.fault f)
  | (w1, Result.not_implemented) => (w1, Result.not_implemented)
  | (w1, Result.value_error e) => (w1, Result.value_error e)
  | (w1, Result.pending) => (w1, Result.pending)
  | (w1, Result.ok _) =>
    if w1.socket.type = MOD_NETWORK_SOCK_STREAM then
      match lwip_tcp_receive w1 len with
      | (w2, Result.ok data) => (w2, Result.ok (data, w1.socket.peer, w1.socket.peer_port))
      | (w2, Result.error e) => (w2, Result.error e)
      | (w2, Result.fault f) => (w2, Result.fault f)
      | (w2, Result.not_implemented) => (w2, Result.not_implemented)
      | (w2, Result.value_error e) => (w2, Result.value_error e)
      | (w2, Result.pending) => (w2, Result.pending)
    else if w1.socket.type = MOD_NETWORK_SOCK_DGRAM then lwip_udp_receive w1 len
    else (w1, Result.fault Fault.uninitialized)

/-- The loop `while (bufinfo.len != 0)` of `lwip_socket_sendall`; the loop need not end
(a send of zero bytes repeats for ever), so it runs on `fuel` iterations. -/
def sendall_loop : Nat → World → List byte → World × Result Unit
  | 0, w, buf => if buf.length ≠ 0 then (w, Result.pending) else (w, Result.ok ())
  | fuel + 1, w, buf =>
    if buf.length ≠ 0 then
      match lwip_tcp_send w buf with
      | (w1, Result.ok ret) => sendall_loop fuel w1 (buf.drop ret)
      | (w1, Result.error e) => (w1, Result.error e)
      | (w1, Result.fault f) => (w1, Result.fault f)
      | (w1, Result.not_implemented) => (w1, Result.not_implemented)
      | (w1, Result.value_error e) => (w1, Result.value_error e)
      | (w1, Result.pending) => (w1, Result.pending)
    else (w, Result.ok ())

def lwip_socket_sendall (fuel : Nat) (w : World) (buf : List byte) : World × Result Unit :=
  match lwip_socket_check_connected w with
  | (w1, Result.error e) => (w1, Result.error e)
  | (w1, Result.fault f) => (w1, Result.fault f)
  | (w1, Result.not_implemented) => (w1, Result.not_implemented)
  | (w1, Result.value_error e) => (w1, Result.value_error e)
  | (w1, Result.pending) => (w1, Result.pending)
  | (w1, Result.ok _) =>
    if w1.socket.type = MOD_NETWORK_SOCK_STREAM then
      if w1.socket.timeout = 0 ∧ buf.length > tcp_sndbuf w1 then (w1, Result.error EAGAIN)
      else sendall_loop fuel w1 buf
    else if w1.socket.type = MOD_NETWORK_SOCK_DGRAM then (w1, Result.not_implemented)
    else (w1, Result.ok ())

def lwip_socket_setblocking (w : World) (flag : Bool) : World :=
  if flag then w.setSocket { w.socket with timeout := -1 }
  else w.setSocket { w.socket with timeout := 0 }

/-! ## The interface registry -/

def ETHER_MAX : Nat := 4

/-- The lwIP macro `IP4_ADDR(&ip, a, b, c, d)`: the address `a.b.c.d`. -/
def IP4_ADDR (a b c d : Nat) : ip_addr_t := ((a * 256 + b) * 256 + c) * 256 + d

/-- The lwIP macro `ip4_addr_isany_val`: is the address `0.0.0.0`. -/
def ip4_addr_isany_val (ip : ip_addr_t) : Bool := ip == IP4_ADDR 0 0 0 0

/-- A C string that is meant to hold an address, up to `strcmp`: the text that
`ip4addr_ntoa_r` prints for an address, the empty string, or any other text, with what
`ipaddr_aton` makes of it (`none` when it rejects the text) and a tag that tells such texts
apart. -/
inductive ip_text
  | dotted (a : ip_addr_t)
  | empty
  | other (parsed : Option ip_addr_t) (tag : Nat)
deriving DecidableEq, Repr

def ip4addr_ntoa_r (ip : ip_addr_t) : ip_text := ip_text.dotted ip

/-- The lwIP function `ipaddr_aton`: the address a text stands for, `none` when it returns 0. -/
def ipaddr_aton (t : ip_text) : Option ip_addr_t :=
  match t with
  | ip_text.dotted a => some a
  | ip_text.empty => none
  | ip_text.other parsed _ => parsed

/-- One vif of the domain in the Xenstore: what `lwip_xenbus_read_integer` returns for its
backend node `/local/domain/0/backend/vif/<domid>/<n>`, and the `ip` entry below it if there
is one. -/
structure vif_t where
  node : Int
  ip : Option ip_text
deriving DecidableEq, Repr

structure lwip_ether_obj_t where
  vif_id : Int
  ip : ip_addr_t
  mask : ip_addr_t
  gw : ip_addr_t
deriving DecidableEq, Repr

/-- The calls of `lwip_addif` into lwIP. -/
inductive netif_call
  | netif_add (obj : lwip_ether_obj_t)
  | netif_set_default (obj : lwip_ether_obj_t)
  | netif_set_up (obj : lwip_ether_obj_t)
deriving DecidableEq, Repr

/-- The process-wide interface state and the configuration store behind it.
* `domid`: what `lwip_xenbus_read_integer("domid")` returns (`-1` when the read fails);
* `vifs`: the vifs 0, 1, ... of the store; the node of any further index reads as `-1`;
* `lwip_ether_objs`: the first `lwip_ether_objs_count` entries of the table of that name;
* `noip_off`: the static variable of `lwip_addif`;
* `netif_calls`: the lwIP calls made so far, oldest first. -/
structure Registry where
  domid : Int
  vifs : List vif_t
  lwip_ether_objs : List lwip_ether_obj_t
  noip_off : Int
  netif_calls : List netif_call
deriving DecidableEq, Repr

def lwip_ether_objs_count (r : Registry) : Nat := r.lwip_ether_objs.length

/-- The loop `while (1)` of `lwip_find_ip` and `lwip_find_next_noip` that counts the vifs:
the number of leading vifs whose node does not read as `-1`. -/
def count_vifs : List vif_t → Nat
  | [] => 0
  | v :: rest => if v.node = -1 then 0 else count_vifs rest + 1

/-- The call `xenbus_read(XBT_NIL, ".../vif/<domid>/<i>/ip", &res)`: the text, or `none`
when the read fails. -/
def xenbus_read_ip (r : Registry) (i : Int) : Option ip_text :=
  if i < 0 then none
  else
    match r.vifs.get? i.toNat with
    | some v => v.ip
    | none => none

/-- The loop `for (i = 0; i <= n_vifs; i++)` of `lwip_find_ip`, with `todo` iterations left:
the text copied to `found_ip` on success. -/
def lwip_find_ip_loop (r : Registry) (ip : ip_text) : Nat → Int → Option ip_text
  | 0, _ => none
  | todo + 1, i =>
    match xenbus_read_ip r i with
    | some res =>
      if ip = ip4addr_ntoa_r (IP4_ADDR 0 0 0 0) then some res
      else if ip = res then some res
      else lwip_find_ip_loop r ip todo (i + 1)
    | none => lwip_find_ip_loop r ip todo (i + 1)

/-- The function `lwip_find_ip(ip, found_ip)`: its return value and the contents of
`found_ip` afterwards. -/
def lwip_find_ip (r : Registry) (ip : ip_text) (found_ip : ip_text) : Int × ip_text :=
  if r.domid = -1 then (-1, found_ip)
  else
    match lwip_find_ip_loop r ip (count_vifs r.vifs + 1) 0 with
    | some res => (0, res)
    | none => (-1, found_ip)

/-- The loop `for (i = offset; i <= n_vifs; i++)` of `lwip_find_next_noip`, with `todo`
iterations left. -/
def lwip_find_next_noip_loop (r : Registry) : Nat → Int → Int
  | 0, _ => -1
  | todo + 1, i =>
    match xenbus_read_ip r i with
    | some _ => lwip_find_next_noip_loop r todo (i + 1)
    | none => i

def lwip_find_next_noip (r : Registry) (offset : Int) : Int :=
  if r.domid = -1 then -1
  else lwip_find_next_noip_loop r ((count_vifs r.vifs : Int) + 1 - offset).toNat offset

/-- The part of `lwip_addif` from `/* Create a new interface */` on. -/
def lwip_addif_create (r : Registry) (vifnum : Int) (ip mask gw : ip_addr_t)
    (str_found_ip : ip_text) : Registry × Result lwip_ether_obj_t :=
  let obj_ip :=
    if !ip4_addr_isany_val ip then ip
    else
      match ipaddr_aton str_found_ip with
      | some a => a
      | none => IP4_ADDR 192 168 0 55
  let obj : lwip_ether_obj_t := { vif_id := vifnum, ip := obj_ip, mask := mask, gw := gw }
  let calls := r.netif_calls ++ [netif_call.netif_add obj] ++
    (if lwip_ether_objs_count r = 0 then [netif_call.netif_set_default obj] else []) ++
    [netif_call.netif_set_up obj]
  ({ r with lwip_ether_objs := r.lwip_ether_objs ++ [obj], netif_calls := calls }, Result.ok obj)

def lwip_addif (r : Registry) (ip mask gw : ip_addr_t) : Registry × Result lwip_ether_obj_t :=
  if lwip_ether_objs_count r ≥ ETHER_MAX then
    (r, Result.value_error ValueError.max_interfaces)
  else
    let str_ip := ip4addr_ntoa_r ip
    let found := lwip_find_ip r str_ip ip_text.empty
    if found.1 < 0 then
      let vifnum := lwip_find_next_noip r r.noip_off
      if vifnum < 0 then
        (r, Result.value_error ValueError.no_suitable_interface)
      else
        lwip_addif_create { r with noip_off := vifnum + 1 } vifnum ip mask gw found.2
    else lwip_addif_create r found.1 ip mask gw found.2

/-! ## Creation and connect -/

/-- The constructor `lwip.socket(domain, type)`: `args` are the arguments given, `new_pcb`
what `tcp_new()` or `udp_new()` returns.  The object comes zeroed from the allocator. -/
def lwip_socket_make_new (args : List Nat) (new_pcb : Option pcb_t) : Result lwip_socket_obj_t :=
  let domain := match args with
    | d :: _ => d
    | [] => MOD_NETWORK_AF_INET
  let type := match args with
    | _ :: t :: _ => t
    | _ => MOD_NETWORK_SOCK_STREAM
  if type ≠ MOD_NETWORK_SOCK_STREAM ∧ type ≠ MOD_NETWORK_SOCK_DGRAM then Result.error EINVAL
  else
    match new_pcb with
    | none => Result.error ENOMEM
    | some pcb =>
      Result.ok { domain := domain, type := type, pcb := some pcb, incoming := none,
                  callback := none, peer := 0, peer_port := 0, timeout := -1,
                  leftover_count := 0, state := STATE_NEW }

/-- The value of `ERR_ARG` in the two numberings of lwIP. -/
def ERR_ARG (pre141 : Bool) : err_t := if pre141 then -12 else -14

/-- The step `if ((lwip_ether_objs_count == 0) && (!lwip_addif(&bind_addr, &bind_mask,
&bind_mask)))` of `lwip_socket_connect`: the registry afterwards and the `ValueError` that
`lwip_addif` raised, if it did. -/
def connect_add_interface (r : Registry) : Registry × Option ValueError :=
  if lwip_ether_objs_count r = 0 then
    match lwip_addif r (IP4_ADDR 0 0 0 0) (IP4_ADDR 255 255 255 0) (IP4_ADDR 255 255 255 0) with
    | (r1, Result.value_error e) => (r1, some e)
    | (r1, _) => (r1, none)
  else (r, none)

/-- The loop `for (retries = timeout / 100; retries--;) { mp_hal_delay_ms(100); if (state !=
STATE_CONNECTING) break; }` of `lwip_socket_connect`. -/
def connect_wait_retry : Nat → World → Option World
  | 0, w => some w
  | retries + 1, w =>
    match mp_hal_delay_ms w 100 with
    | none => none
    | some w1 =>
      if w1.socket.state ≠ STATE_CONNECTING then some w1 else connect_wait_retry retries w1

/-- The loop `while (state == STATE_CONNECTING) poll_sockets();` of `lwip_socket_connect`. -/
def connect_wait_poll : Nat → World → Option World
  | 0, _ => none
  | fuel + 1, w =>
    if w.socket.state = STATE_CONNECTING then
      match poll_sockets w with
      | none => none
      | some w1 => connect_wait_poll fuel w1
    else some w

/-- The end of `lwip_socket_connect`: `err` is `ERR_OK` or the state, and is translated. -/
def connect_finish (w : World) : World × Result Unit :=
  let err := if w.socket.state = STATE_CONNECTED then ERR_OK else w.socket.state
  if err ≠ ERR_OK then
    match error_lookup w.pre141 (-err) with
    | some e => (w, Result.error e)
    | none => (w, Result.fault Fault.index_out_of_range)
  else (w, Result.ok ())

/-- The `MOD_NETWORK_SOCK_STREAM` case of `lwip_socket_connect`, once the state is known to
be `STATE_NEW`. -/
def connect_stream (w : World) (pcb : pcb_t) (dest : ip_addr_t) (port : Nat) :
    World × Result Unit :=
  let w0 := w.log (Call.tcp_recv pcb recv_handler._lwip_tcp_recv)
  let w1 := w0.setSocket { w0.socket with state := STATE_CONNECTING }
  let st := (w1.log (Call.tcp_connect pcb dest port)).next_status
  if st.1 ≠ ERR_OK then
    let w2 := st.2.setSocket { st.2.socket with state := STATE_NEW }
    match error_lookup w.pre141 (-st.1) with
    | some e => (w2, Result.error e)
    | none => (w2, Result.fault Fault.index_out_of_range)
  else
    let w3 := st.2.setSocket { st.2.socket with peer_port := port, peer := dest }
    if w3.socket.timeout ≠ -1 then
      match connect_wait_retry (w3.socket.timeout.toNat / 100) w3 with
      | none => (w3, Result.pending)
      | some w4 =>
        if w4.socket.state = STATE_CONNECTING then (w4, Result.error ETIMEDOUT)
        else connect_finish w4
    else
      match connect_wait_poll (w3.pumps.length + 1) w3 with
      | none => (w3, Result.pending)
      | some w4 => connect_finish w4

def lwip_socket_connect (r : Registry) (w : World) (dest : ip_addr_t) (port : Nat) :
    Registry × World × Result Unit :=
  match w.socket.pcb with
  | none => (r, w, Result.error EBADF)
  | some pcb =>
    match connect_add_interface r with
    | (r1, some e) => (r1, w, Result.value_error e)
    | (r1, none) =>
      if w.socket.type = MOD_NETWORK_SOCK_STREAM then
        if w.socket.state ≠ STATE_NEW then
          if w.socket.state = STATE_CONNECTED then (r1, w, Result.error EALREADY)
          else (r1, w, Result.error EINPROGRESS)
        else (r1, connect_stream w pcb dest port)
      else if w.socket.type = MOD_NETWORK_SOCK_DGRAM then
        let st := (w.log (Call.udp_connect pcb dest port)).next_status
        if st.1 ≠ ERR_OK then
          match error_lookup w.pre141 (-st.1) with
          | some e => (r1, st.2, Result.error e)
          | none => (r1, st.2, Result.fault Fault.index_out_of_range)
        else (r1, st.2, Result.ok ())
      else
        match error_lookup w.pre141 (-(ERR_ARG w.pre141)) with
        | some e => (r1, w, Result.error e)
        | none => (r1, w, Result.fault Fault.index_out_of_range)

/-! ## Bind and accept -/

/-- The lwIP macro `ip4_addr_islinklocal`: the address is in 169.254.0.0/16. -/
def ip4_addr_islinklocal (ip : ip_addr_t) : Bool := ip / 65536 == 169 * 256 + 254

/-- The lwIP macro `ip4_addr_ismulticast`: the address is in 224.0.0.0/4. -/
def ip4_addr_ismulticast (ip : ip_addr_t) : Bool := ip / 268435456 == 14

/-- The function `lwip_address_bindable`.  The lwIP function `ip4_addr_isbroadcast(ip,
netif)` depends on flags of the netif that the module does not hold; it is the parameter
`isbroadcast`. -/
def lwip_address_bindable (isbroadcast : ip_addr_t → lwip_ether_obj_t → Bool) (r : Registry)
    (ip : ip_addr_t) : Bool :=
  if ip4_addr_islinklocal ip then true
  else if lwip_ether_objs_count r = 0 then false
  else if ip4_addr_isany_val ip then true
  else if ip4_addr_ismulticast ip then true
  else if r.lwip_ether_objs.any (fun o => isbroadcast ip o) then true
  else if r.lwip_ether_objs.any (fun o => o.ip == ip) then true
  else false

/-- The step `if ((!lwip_address_bindable(&bind_addr)) && (!lwip_addif(&bind_addr,
&bind_mask, &bind_gw)))` of `lwip_socket_bind`: the registry afterwards and the `ValueError`
that `lwip_addif` raised, if it did. -/
def bind_add_interface (isbroadcast : ip_addr_t → lwip_ether_obj_t → Bool) (r : Registry)
    (bind_addr : ip_addr_t) : Registry × Option ValueError :=
  if !lwip_address_bindable isbroadcast r bind_addr then
    match lwip_addif r bind_addr (IP4_ADDR 255 255 255 0) (IP4_ADDR 0 0 0 0) with
    | (r1, Result.value_error e) => (r1, some e)
    | (r1, _) => (r1, none)
  else (r, none)

/-- The engine's bind primitive (`tcp_bind` or `udp_bind`, recorded as `call`) and the
translation of its result at the end of `lwip_socket_bind`. -/
def bind_engine (w : World) (call : Call) : World × Result Unit :=
  let st := (w.log call).next_status
  if st.1 ≠ ERR_OK then
    match error_lookup w.pre141 (-st.1) with
    | some e => (st.2, Result.error e)
    | none => (st.2, Result.fault Fault.index_out_of_range)
  else (st.2, Result.ok ())

def lwip_socket_bind (isbroadcast : ip_addr_t → lwip_ether_obj_t → Bool) (r : Registry)
    (w : World) (bind_addr : ip_addr_t) (port : Nat) : Registry × World × Result Unit :=
  match bind_add_interface isbroadcast r bind_addr with
  | (r1, some e) => (r1, w, Result.value_error e)
  | (r1, none) =>
    if w.socket.type = MOD_NETWORK_SOCK_STREAM then
      match w.socket.pcb with
      | none => (r1, w, Result.fault Fault.null_deref)
      | some pcb => (r1, bind_engine w (Call.tcp_bind pcb bind_addr port))
    else if w.socket.type = MOD_NETWORK_SOCK_DGRAM then
      match w.socket.pcb with
      | none => (r1, w, Result.fault Fault.null_deref)
      | some pcb => (r1, bind_engine w (Call.udp_bind pcb bind_addr port))
    else
      match error_lookup w.pre141 (-(ERR_ARG w.pre141)) with
      | some e => (r1, w, Result.error e)
      | none => (r1, w, Result.fault Fault.index_out_of_range)

/-- The loop `for (retries = timeout / 100; retries--;) { mp_hal_delay_ms(100); if
(incoming.connection != NULL) break; }` of `lwip_socket_accept`. -/
def accept_wait_retry : Nat → World → Option World
  | 0, w => some w
  | retries + 1, w =>
    match mp_hal_delay_ms w 100 with
    | none => none
    | some w1 => if w1.socket.incoming ≠ none then some w1 else accept_wait_retry retries w1

/-- The loop `while (incoming.connection == NULL) poll_sockets();` of
`lwip_socket_accept`. -/
def accept_wait_poll : Nat → World → Option World
  | 0, _ => none
  | fuel + 1, w =>
    if w.socket.incoming = none then
      match poll_sockets w with
      | none => none
      | some w1 => accept_wait_poll fuel w1
    else some w

/-- The part of `lwip_socket_accept` from `// create new socket object` on: the listener's
world afterwards, and the new socket with the remote address and port.  `remote_ip` and
`remote_port` are the fields of that name of the accepted pcb, which the engine holds; the
new object comes zeroed from the allocator. -/
def accept_take (w : World) (listener : pcb_t) (remote_ip : ip_addr_t) (remote_port : Nat) :
    World × Result (lwip_socket_obj_t × ip_addr_t × Nat) :=
  match w.socket.incoming with
  | none => (w, Result.fault Fault.null_deref)
  | some (incoming_t.pbuf _) => (w, Result.fault Fault.wrong_member)
  | some (incoming_t.connection c) =>
    let socket2 : lwip_socket_obj_t :=
      { domain := MOD_NETWORK_AF_INET, type := MOD_NETWORK_SOCK_STREAM, pcb := some c,
        incoming := none, callback := none, peer := 0, peer_port := 0,
        timeout := w.socket.timeout, leftover_count := 0, state := STATE_CONNECTED }
    let w1 := w.setSocket { w.socket with incoming := none }
    let w2 := (((w1.log (Call.tcp_arg c)).log (Call.tcp_err c)).log
      (Call.tcp_recv c recv_handler._lwip_tcp_recv)).log (Call.tcp_accepted listener)
    (w2, Result.ok (socket2, remote_ip, remote_port))

def lwip_socket_accept (w : World) (remote_ip : ip_addr_t) (remote_port : Nat) :
    World × Result (lwip_socket_obj_t × ip_addr_t × Nat) :=
  match w.socket.pcb with
  | none => (w, Result.error EBADF)
  | some listener =>
    if w.socket.type ≠ MOD_NETWORK_SOCK_STREAM then (w, Result.error EOPNOTSUPP)
    else if listener.state ≠ tcp_state.LISTEN then (w, Result.error EINVAL)
    else if w.socket.incoming = none then
      if w.socket.timeout ≠ -1 then
        match accept_wait_retry (w.socket.timeout.toNat / 100) w with
        | none => (w, Result.pending)
        | some w1 =>
          if w1.socket.incoming = none then (w1, Result.error ETIMEDOUT)
          else accept_take w1 listener remote_ip remote_port
      else
        match accept_wait_poll (w.pumps.length + 1) w with
        | none => (w, Result.pending)
        | some w1 => accept_take w1 listener remote_ip remote_port
    else accept_take w listener remote_ip remote_port

/-! ## The lwIP error names -/

/-- The names of the lwIP result codes as the comments of `error_lookup_table` list them,
with the extension `_ERR_BADF`. -/
inductive lwip_err
  | ERR_OK | ERR_MEM | ERR_BUF | ERR_TIMEOUT | ERR_RTE | ERR_INPROGRESS | ERR_VAL
  | ERR_WOULDBLOCK | ERR_ABRT | ERR_RST | ERR_CLSD | ERR_CONN | ERR_ARG | ERR_USE | ERR_IF
  | ERR_ISCONN | _ERR_BADF
deriving DecidableEq, Repr

/-- The numeric value of each name before lwIP 1.4.1 (`pre141 = true`) and from 1.4.1 on, as
the comments of the two layouts of `error_lookup_table` give them. -/
def lwip_err.code (pre141 : Bool) : lwip_err → err_t
  | lwip_err.ERR_OK => 0
  | lwip_err.ERR_MEM => -1
  | lwip_err.ERR_BUF => -2
  | lwip_err.ERR_TIMEOUT => -3
  | lwip_err.ERR_RTE => -4
  | lwip_err.ERR_INPROGRESS => -5
  | lwip_err.ERR_VAL => -6
  | lwip_err.ERR_WOULDBLOCK => -7
  | lwip_err.ERR_ABRT => if pre141 then -8 else -10
  | lwip_err.ERR_RST => if pre141 then -9 else -11
  | lwip_err.ERR_CLSD => if pre141 then -10 else -12
  | lwip_err.ERR_CONN => if pre141 then -11 else -13
  | lwip_err.ERR_ARG => if pre141 then -12 else -14
  | lwip_err.ERR_USE => if pre141 then -13 else -8
  | lwip_err.ERR_IF => if pre141 then -14 else -15
  | lwip_err.ERR_ISCONN => if pre141 then -15 else -9
  | lwip_err._ERR_BADF => -16

/-! ## Scenarios -/

/-- Successive `recv` calls, one for each `maxLength` of the list, stopping as soon as the
inbox is empty or a call fails: the world afterwards and the bytes returned, concatenated
in call order. -/
def recv_seq : World → List Nat → World × List byte
  | w, [] => (w, [])
  | w, n :: ns =>
    if w.socket.incoming = none then (w, [])
    else
      match lwip_socket_recv w n with
      | (w1, Result.ok data) => ((recv_seq w1 ns).1, data ++ (recv_seq w1 ns).2)
      | (w1, _) => (w1, [])

/-- A live stream socket without latched error whose inbox holds the buffer `B`, of which `k`
bytes are still to be read (`leftover_count = 0` stands for the whole buffer). -/
def Draining (w : World) (pcb : pcb_t) (B : List byte) (k : Nat) : Prop :=
  w.socket.type = MOD_NETWORK_SOCK_STREAM ∧ w.socket.pcb = some pcb ∧ 0 ≤ w.socket.state ∧
  w.socket.incoming = some (incoming_t.pbuf ⟨B⟩) ∧
  (if w.socket.leftover_count = 0 then B.length else w.socket.leftover_count) = k

/-- A stream socket in the state the engine leaves it in after a data callback. -/
def stream_socket (inbox : Option incoming_t) (state timeout : Int) : lwip_socket_obj_t :=
  { domain := MOD_NETWORK_AF_INET, type := MOD_NETWORK_SOCK_STREAM,
    pcb := some ⟨7, tcp_state.ESTABLISHED⟩, incoming := inbox, callback := none,
    peer := 0, peer_port := 0, timeout := timeout, leftover_count := 0, state := state }

/-- A datagram socket with a live handle and an empty inbox. -/
def dgram_socket (timeout : Int) : lwip_socket_obj_t :=
  { domain := MOD_NETWORK_AF_INET, type := MOD_NETWORK_SOCK_DGRAM,
    pcb := some ⟨9, tcp_state.CLOSED⟩, incoming := none, callback := none,
    peer := 0, peer_port := 0, timeout := timeout, leftover_count := 0, state := STATE_NEW }

/-- A listening stream socket, with what its pending slot holds. -/
def listener_socket (pending : Option incoming_t) : lwip_socket_obj_t :=
  { domain := MOD_NETWORK_AF_INET, type := MOD_NETWORK_SOCK_STREAM,
    pcb := some ⟨3, tcp_state.LISTEN⟩, incoming := pending, callback := none,
    peer := 0, peer_port := 0, timeout := -1, leftover_count := 0, state := STATE_NEW }

/-- The calls `lwip_socket_close` makes to shut down the handle of a stream socket:
`tcp_close`, then `tcp_abort` of the same handle when `tcp_close` did not return `ERR_OK`. -/
def stream_shutdown_calls (w : World) (pcb : pcb_t) : List Call :=
  Call.tcp_close pcb ::
    (if w.next_status.1 = ERR_OK then [] else [Call.tcp_abort (incoming_t.connection pcb)])

/-- A world around a socket with nothing scripted and nothing called yet. -/
def world_of (s : lwip_socket_obj_t) : World :=
  { socket := s, pre141 := false, now := 0, snd_buf := 0, pumps := [], status := [], calls := [] }

/-- The chunks handed to `tcp_write` in a call record, oldest first. -/
def tcp_writes : List Call → List (List byte)
  | [] => []
  | Call.tcp_write _ data :: rest => data :: tcp_writes rest
  | _ :: rest => tcp_writes rest

/-- The durations of the `mp_hal_delay_ms` calls in a call record, oldest first. -/
def sleeps : List Call → List Nat
  | [] => []
  | Call.mp_hal_delay_ms ms :: rest => ms :: sleeps rest
  | _ :: rest => sleeps rest

/-- The calls that the callbacks of the module make. -/
def Call.from_callback : Call → Bool
  | Call.pbuf_free _ => true
  | Call.tcp_recv _ _ => true
  | Call.exec_user_callback _ => true
  | _ => false

/-- The callbacks that leave `state` alone: all but stream-connected, stream-error and
stream-received with a null buffer (the peer's close). -/
def keeps_state : Callback → Bool
  | Callback.tcp_connected _ => false
  | Callback.tcp_error _ => false
  | Callback.tcp_recv none _ => false
  | _ => true

/-- The chunks use the buffer up from the front: each chunk is the leading part of what the
chunks before it have left, and nothing is left at the end. -/
def consumes : List byte → List (List byte) → Prop
  | buf, [] => buf = []
  | buf, c :: cs => c = buf.take c.length ∧ consumes (buf.drop c.length) cs

/-- Exactly one of the two holds: the socket has its handle, or its state is a closed/error
value. -/
def handle_xor_error (s : lwip_socket_obj_t) : Prop :=
  (s.pcb ≠ none ∧ ¬ s.state < 0) ∨ (s.pcb = none ∧ s.state < 0)

/-- The value of `ERR_IF` in the two numberings of lwIP. -/
def ERR_IF (pre141 : Bool) : err_t := if pre141 then -14 else -15

/-- The world a wait loop stopped in. -/
def Wait.world : Wait → World
  | Wait.done w _ => w
  | Wait.timedout w => w
  | Wait.fault w _ => w
  | Wait.pending w => w

/-- The byte counts passed to `tcp_recved` in a call record, oldest first. -/
def acks : List Call → List Nat
  | [] => []
  | Call.tcp_recved _ len :: rest => len :: acks rest
  | _ :: rest => acks rest

/-- A connected blocking stream socket whose inbox holds a fresh buffer of five bytes. -/
def world_five_bytes : World :=
  world_of (stream_socket (some (incoming_t.pbuf ⟨[1, 2, 3, 4, 5]⟩)) STATE_CONNECTED (-1))

/-- A registry over a store whose only vif, vif 0, has the `ip` entry 10.0.0.5. -/
def registry_vif_with_ip : Registry :=
  { domid := 3, vifs := [⟨0, some (ip_text.dotted (IP4_ADDR 10 0 0 5))⟩], lwip_ether_objs := [],
    noip_off := 0, netif_calls := [] }

/-- A registry over a store with two vifs: vif 0 without `ip` entry, vif 1 with the entry
10.0.0.5. -/
def registry_ip_on_vif_1 : Registry :=
  { domid := 3, vifs := [⟨0, none⟩, ⟨0, some (ip_text.dotted (IP4_ADDR 10 0 0 5))⟩],
    lwip_ether_objs := [], noip_off := 0, netif_calls := [] }

/-- A stream socket fresh from the constructor, in a world whose first pump brings the
peer's SYN-ACK and FIN together: the engine calls stream-connected, then stream-received
with a null buffer. -/
def world_peer_closes_at_once : World :=
  match lwip_socket_make_new [] (some ⟨7, tcp_state.CLOSED⟩) with
  | Result.ok s =>
    { world_of s with
      pumps := [⟨[Callback.tcp_connected ERR_OK, Callback.tcp_recv none ERR_OK], 10, 100⟩] }
  | _ => world_of (stream_socket none STATE_NEW (-1))

/-- A registry that holds `ETHER_MAX` interfaces. -/
def registry_full : Registry :=
  { domid := 3, vifs := [⟨0, none⟩], noip_off := 4, netif_calls := [],
    lwip_ether_objs := List.replicate 4 { vif_id := 0, ip := 1, mask := 0, gw := 0 } }

/-- A registry over a store with one vif without `ip` entry, and no interface yet. -/
def registry_one_vif : Registry :=
  { domid := 3, vifs := [⟨0, none⟩], lwip_ether_objs := [], noip_off := 0, netif_calls := [] }

/-- A stream socket fresh from the constructor, in a world whose first pump reports the
connection as established. -/
def world_fresh : World :=
  match lwip_socket_make_new [] (some ⟨7, tcp_state.CLOSED⟩) with
  | Result.ok s => { world_of s with pumps := [⟨[Callback.tcp_connected ERR_OK], 10, 100⟩] }
  | _ => world_of (stream_socket none STATE_NEW (-1))

/-- The world after `connect` on `world_fresh`. -/
def world_connected : World := (lwip_socket_connect registry_one_vif world_fresh 77 80).2.1

/-- The world after `close` on `world_connected`. -/
def world_closed : World := lwip_socket_close world_connected

/-- The world after the peer's FIN reaches the engine, which still has the callbacks of the
closed socket registered: the stream-received callback fires with a null buffer. -/
def world_closed_then_fin : World := deliver world_closed (Callback.tcp_recv none ERR_OK)

/-- A connected blocking stream socket while the engine advertises 5 bytes of send space. -/
def world_small_sndbuf : World :=
  { world_of (stream_socket none STATE_CONNECTED (-1)) with snd_buf := 5 }


/-- A connected stream socket holding three unread bytes, after the engine reported a
connection reset (`ERR_RST` is `-9` in the pre-1.4.1 numbering) through the error callback. -/
def world_after_reset : World :=
  _lwip_tcp_error (world_of (stream_socket (some (incoming_t.pbuf ⟨[1, 2, 3]⟩)) STATE_CONNECTED (-1)))
    (-9)

/-- A connected stream socket holding three unread bytes, in a world where the next engine
primitive (the `tcp_close` of `lwip_socket_close`) fails with `ERR_MEM` (`-1`). -/
def world_close_fails : World :=
  { world_of (stream_socket (some (incoming_t.pbuf ⟨[1, 2, 3]⟩)) STATE_CONNECTED (-1)) with
    status := [-1] }

/-- The registry after `connect` on `world_fresh` over `registry_one_vif`: it holds the
interface that the call created. -/
def registry_connected : Registry := (lwip_socket_connect registry_one_vif world_fresh 77 80).1

/-- The world after the peer's FIN reaches the connected socket of `world_connected`: the
stream-received callback fires with a null buffer. -/
def world_peer_closed : World := deliver world_connected (Callback.tcp_recv none ERR_OK)

/-- The world after `setblocking(False)` and `connect` on a stream socket fresh from the
constructor: the wait has no retries, `connect` has raised `ETIMEDOUT` and the handshake is
still under way. -/
def world_connecting : World :=
  (lwip_socket_connect registry_one_vif (lwip_socket_setblocking world_fresh false) 77 80).2.1

/-! # Theorems -/

/-! ## Arithmetic of `u16` -/

theorem u16_of_lt (n : Nat) (h : n < 65536) : u16 (n : Int) = n := by
  unfold u16
  omega

theorem u16_sub_of_le (a b : Nat) (hb : b ≤ a) (ha : a < 65536) :
    u16 ((a : Int) - b) = a - b := by
  unfold u16
  omega

/-! ## Draining one buffer with several reads -/

theorem recv_draining_eq (w : World) (pcb : pcb_t) (B : List byte) (k : Nat)
    (h : Draining w pcb B k) (len : Nat) :
    lwip_socket_recv w len = tcp_receive_copy w len := by
  obtain ⟨ht, hp, hs, hi, _⟩ := h
  have hs2 : ¬ w.socket.state < 0 := by omega
  simp [lwip_socket_recv, lwip_socket_check_connected, hp, ht, lwip_tcp_receive,
    STREAM_ERROR_CHECK, hs2, hi]

theorem tcp_receive_copy_draining (w : World) (pcb : pcb_t) (B : List byte) (k : Nat)
    (h : Draining w pcb B k) (hk : k ≤ B.length) (hB : B.length < 65536) (len : Nat) :
    (tcp_receive_copy w len).2 = Result.ok ((B.drop (B.length - k)).take len) ∧
    (len < k → Draining (tcp_receive_copy w len).1 pcb B (k - len)) ∧
    (k ≤ len → (tcp_receive_copy w len).1.socket.incoming = none) := by
  obtain ⟨ht, hp, hs, hi, hl⟩ := h
  have hcopy : u16 (if k ≥ len then (len : Int) else (k : Int)) = min len k := by
    split
    · rw [u16_of_lt len (by omega)]; omega
    · rw [u16_of_lt k (by omega)]; omega
  have hoff : u16 ((B.length : Int) - k) = B.length - k := u16_sub_of_le _ _ hk hB
  have hres : (tcp_receive_copy w len).2 = Result.ok ((B.drop (B.length - k)).take len) := by
    simp only [tcp_receive_copy, hp, hi, pbuf.tot_len, hl, pbuf_copy_partial]
    have : ((B.drop (B.length - k)).take (min len k)) = (B.drop (B.length - k)).take len := by
      rw [List.take_eq_take]
      simp only [List.length_drop]
      omega
    simp [hcopy, hoff, this]
  refine ⟨hres, ?_, ?_⟩
  · intro hlt
    have hgt : k > len := hlt
    simp only [tcp_receive_copy, hp, hi, pbuf.tot_len, hl, hgt, if_true]
    have hne : k - len ≠ 0 := by omega
    refine ⟨ht, rfl, hs, rfl, ?_⟩
    simp [World.log, World.setSocket, hne]
  · intro hle
    have hgt : ¬ k > len := by omega
    simp [tcp_receive_copy, hp, hi, pbuf.tot_len, hl, hgt, World.log, World.setSocket]

theorem recv_seq_empty_inbox (w : World) (lens : List Nat) (h : w.socket.incoming = none) :
    recv_seq w lens = (w, []) := by
  cases lens with
  | nil => rfl
  | cons n ns => simp [recv_seq, h]

theorem recv_seq_draining (lens : List Nat) :
    ∀ (w : World) (pcb : pcb_t) (B : List byte) (k : Nat), Draining w pcb B k →
      k ≤ B.length → B.length < 65536 → (∀ n ∈ lens, 0 < n) →
      (recv_seq w lens).2 = (B.drop (B.length - k)).take lens.sum ∧
      (lens ≠ [] → k ≤ lens.sum → (recv_seq w lens).1.socket.incoming = none) ∧
      ((recv_seq w lens).1.socket.incoming = none → k ≤ lens.sum) := by
  induction lens with
  | nil =>
    intro w pcb B k h _ _ _
    refine ⟨by simp [recv_seq], fun hne => absurd rfl hne, ?_⟩
    intro hnone
    simp [recv_seq, h.2.2.2.1] at hnone
  | cons n ns ih =>
    intro w pcb B k h hk hB hpos
    have hn : 0 < n := hpos n (List.mem_cons_self _ _)
    have hns : ∀ m ∈ ns, 0 < m := fun m hm => hpos m (List.mem_cons_of_mem _ hm)
    obtain ⟨hres, hlt, hle⟩ := tcp_receive_copy_draining w pcb B k h hk hB n
    have hin : w.socket.incoming ≠ none := by simp [h.2.2.2.1]
    have hstep : recv_seq w (n :: ns) =
        ((recv_seq (tcp_receive_copy w n).1 ns).1,
          (B.drop (B.length - k)).take n ++ (recv_seq (tcp_receive_copy w n).1 ns).2) := by
      rw [recv_seq, if_neg hin, recv_draining_eq w pcb B k h n]
      have hpair : tcp_receive_copy w n = ((tcp_receive_copy w n).1, (tcp_receive_copy w n).2) := rfl
      rw [hpair, hres]
    rw [hstep]
    simp only [List.sum_cons]
    by_cases hcase : n < k
    · obtain ⟨ih1, ih2, ih3⟩ := ih _ pcb B (k - n) (hlt hcase) (by omega) hB hns
      refine ⟨?_, ?_, ?_⟩
      · rw [ih1, List.take_add, List.drop_drop]
        have : B.length - (k - n) = B.length - k + n := by omega
        rw [this]
      · intro _ hsum
        have hne : ns ≠ [] := by
          intro he
          subst he
          simp at hsum
          omega
        exact ih2 hne (by omega)
      · intro hnone
        have := ih3 hnone
        omega
    · have hkn : k ≤ n := by omega
      have hempty := hle hkn
      rw [recv_seq_empty_inbox _ ns hempty]
      refine ⟨?_, fun _ _ => hempty, fun _ => by omega⟩
      simp only [List.append_nil]
      rw [List.take_of_length_le, List.take_of_length_le]
      · simp only [List.length_drop]; omega
      · simp only [List.length_drop]; omega

/-- C1: on a connected stream socket whose inbox holds one engine buffer with bytes `B` and
no partial read in progress, any sequence of `recv` calls with positive `maxLength` returns,
concatenated, a leading part of `B`; once the sequence has emptied the inbox the concatenation
is `B` itself, which is what one `recv` with `maxLength ≥ |B|` returns; and the inbox does get
empty as soon as the lengths add up to `|B|`. -/
theorem C1_small_recvs_reassemble_buffer (w : World) (pcb : pcb_t) (B : List byte)
    (lens : List Nat)
    (htype : w.socket.type = MOD_NETWORK_SOCK_STREAM)
    (hstate : w.socket.state = STATE_CONNECTED)
    (hpcb : w.socket.pcb = some pcb)
    (hinbox : w.socket.incoming = some (incoming_t.pbuf ⟨B⟩))
    (hleft : w.socket.leftover_count = 0)
    (hB : B.length < 65536)
    (hpos : ∀ n ∈ lens, 0 < n) :
    (∀ N, B.length ≤ N →
      (lwip_socket_recv w N).2 = Result.ok B ∧ (lwip_socket_recv w N).1.socket.incoming = none) ∧
    (recv_seq w lens).2 = B.take lens.sum ∧
    ((recv_seq w lens).1.socket.incoming = none → (recv_seq w lens).2 = B) ∧
    (lens ≠ [] → B.length ≤ lens.sum → (recv_seq w lens).1.socket.incoming = none) := by
  have hd : Draining w pcb B B.length := by
    refine ⟨htype, hpcb, ?_, hinbox, by simp [hleft]⟩
    rw [hstate]; decide
  obtain ⟨h1, h2, h3⟩ := recv_seq_draining lens w pcb B B.length hd (le_refl _) hB hpos
  simp only [Nat.sub_self, List.drop_zero] at h1
  refine ⟨?_, h1, ?_, h2⟩
  · intro N hN
    obtain ⟨r1, _, r3⟩ := tcp_receive_copy_draining w pcb B B.length hd (le_refl _) hB N
    rw [recv_draining_eq w pcb B B.length hd N]
    refine ⟨?_, r3 hN⟩
    rw [r1]
    simp only [Nat.sub_self, List.drop_zero]
    rw [List.take_of_length_le hN]
  · intro hnone
    rw [h1, List.take_of_length_le (h3 hnone)]

theorem C1_small_recvs_reassemble_buffer_witness :
    (recv_seq (world_of (stream_socket (some (incoming_t.pbuf ⟨[10, 20, 30, 40, 50]⟩)) 2 (-1)))
        [2, 2, 2]).2 = [10, 20, 30, 40, 50] ∧
    (lwip_socket_recv (world_of (stream_socket (some (incoming_t.pbuf ⟨[10, 20, 30, 40, 50]⟩)) 2 (-1)))
        8).2 = Result.ok [10, 20, 30, 40, 50] :=
  have h := C1_small_recvs_reassemble_buffer
    (world_of (stream_socket (some (incoming_t.pbuf ⟨[10, 20, 30, 40, 50]⟩)) 2 (-1)))
    ⟨7, tcp_state.ESTABLISHED⟩ [10, 20, 30, 40, 50] [2, 2, 2] rfl rfl rfl rfl rfl
    (by decide) (by decide)
  ⟨h.2.2.1 (h.2.2.2 (by decide) (by decide)), (h.1 8 (by decide)).1⟩

/-- C2: on a datagram socket with an empty inbox, when the datagram-arrived callback fires
twice with no `recv` in between, the second call frees `d2` and leaves the socket (inbox, peer
address, peer port) as the first call left it; the next `recvfrom` returns the bytes of `d1`
(cut to `maxLength`) with the address and port of `d1`, and leaves the inbox empty. -/
theorem C2_second_datagram_dropped_first_delivered (w : World) (pcb : pcb_t) (d1 d2 : pbuf)
    (a1 a2 : ip_addr_t) (p1 p2 len : Nat)
    (htype : w.socket.type = MOD_NETWORK_SOCK_DGRAM)
    (hpcb : w.socket.pcb = some pcb)
    (hinbox : w.socket.incoming = none)
    (hd1 : d1.tot_len < 65536) :
    (_lwip_udp_incoming (_lwip_udp_incoming w d1 a1 p1) d2 a2 p2).socket =
      (_lwip_udp_incoming w d1 a1 p1).socket ∧
    (_lwip_udp_incoming (_lwip_udp_incoming w d1 a1 p1) d2 a2 p2).calls =
      w.calls ++ [Call.pbuf_free (incoming_t.pbuf d2)] ∧
    (_lwip_udp_incoming w d1 a1 p1).socket.incoming = some (incoming_t.pbuf d1) ∧
    (lwip_socket_recvfrom (_lwip_udp_incoming (_lwip_udp_incoming w d1 a1 p1) d2 a2 p2) len).2 =
      Result.ok (d1.payload.take len, a1, p1) ∧
    (lwip_socket_recvfrom (_lwip_udp_incoming (_lwip_udp_incoming w d1 a1 p1) d2 a2 p2)
      len).1.socket.incoming = none ∧
    (d1.tot_len ≤ len →
      (lwip_socket_recvfrom (_lwip_udp_incoming (_lwip_udp_incoming w d1 a1 p1) d2 a2 p2) len).2 =
        Result.ok (d1.payload, a1, p1)) := by
  have hcopy : u16 (if d1.tot_len > len then (len : Int) else (d1.tot_len : Int)) =
      min len d1.tot_len := by
    split
    · rw [u16_of_lt len (by omega)]; omega
    · rw [u16_of_lt d1.tot_len hd1]; omega
  have htake : List.take (min len d1.tot_len) d1.payload = List.take len d1.payload := by
    rw [List.take_eq_take]
    simp only [pbuf.tot_len]
    omega
  have hrecv :
      (lwip_socket_recvfrom (_lwip_udp_incoming (_lwip_udp_incoming w d1 a1 p1) d2 a2 p2) len).2 =
        Result.ok (d1.payload.take len, a1, p1) := by
    simp [_lwip_udp_incoming, hinbox, World.setSocket, World.log, lwip_socket_recvfrom,
      lwip_socket_check_connected, hpcb, htype, MOD_NETWORK_SOCK_DGRAM, MOD_NETWORK_SOCK_STREAM,
      lwip_udp_receive, udp_receive_copy, hcopy, pbuf_copy_partial, htake]
  refine ⟨?_, ?_, ?_, hrecv, ?_, ?_⟩
  · simp [_lwip_udp_incoming, hinbox, World.setSocket, World.log]
  · simp [_lwip_udp_incoming, hinbox, World.setSocket, World.log]
  · simp [_lwip_udp_incoming, hinbox, World.setSocket]
  · simp [_lwip_udp_incoming, hinbox, World.setSocket, World.log, lwip_socket_recvfrom,
      lwip_socket_check_connected, hpcb, htype, MOD_NETWORK_SOCK_DGRAM, MOD_NETWORK_SOCK_STREAM,
      lwip_udp_receive, udp_receive_copy]
  · intro hlen
    rw [hrecv, List.take_of_length_le hlen]

theorem C2_second_datagram_dropped_first_delivered_witness :
    (lwip_socket_recvfrom
      (_lwip_udp_incoming (_lwip_udp_incoming (world_of (dgram_socket (-1))) ⟨[1, 2, 3]⟩ 100 5000)
        ⟨[8, 9]⟩ 200 6000) 16).2 = Result.ok ([1, 2, 3], 100, 5000) :=
  (C2_second_datagram_dropped_first_delivered (world_of (dgram_socket (-1)))
    ⟨9, tcp_state.CLOSED⟩ ⟨[1, 2, 3]⟩ ⟨[8, 9]⟩ 100 200 5000 6000 16 rfl rfl rfl
    (by decide)).2.2.2.2.2 (by decide)

/-- C3: when the stream-received callback gets a non-null buffer `p` while the inbox is
occupied, it returns `ERR_BUF` and changes nothing (no socket field, no call, so the held
buffer is neither freed nor replaced); when the inbox is empty it stores `p` there, changes
no other field, and returns `ERR_OK`. -/
theorem C3_tcp_recv_keeps_or_stores (w : World) (p : pbuf) (err : err_t) :
    (w.socket.incoming ≠ none → _lwip_tcp_recv w (some p) err = (w, ERR_BUF)) ∧
    (w.socket.incoming = none →
      (_lwip_tcp_recv w (some p) err).2 = ERR_OK ∧
      (_lwip_tcp_recv w (some p) err).1.socket =
        { w.socket with incoming := some (incoming_t.pbuf p) }) := by
  constructor
  · intro h
    simp [_lwip_tcp_recv, h]
  · intro h
    simp only [_lwip_tcp_recv, h, ne_eq, not_true_eq_false, if_false, true_and]
    unfold exec_user_callback
    split <;> simp [World.setSocket, World.log]

theorem C3_tcp_recv_keeps_or_stores_witness :
    _lwip_tcp_recv (world_of (stream_socket (some (incoming_t.pbuf ⟨[1, 2]⟩)) 2 (-1)))
        (some ⟨[3, 4]⟩) 0 =
      (world_of (stream_socket (some (incoming_t.pbuf ⟨[1, 2]⟩)) 2 (-1)), ERR_BUF) ∧
    (_lwip_tcp_recv (world_of (stream_socket none 2 (-1))) (some ⟨[3, 4]⟩) 0).1.socket.incoming =
      some (incoming_t.pbuf ⟨[3, 4]⟩) :=
  ⟨(C3_tcp_recv_keeps_or_stores _ ⟨[3, 4]⟩ 0).1 (by decide),
    by rw [((C3_tcp_recv_keeps_or_stores (world_of (stream_socket none 2 (-1))) ⟨[3, 4]⟩ 0).2
      rfl).2]⟩

/-- C4: when the stream-accepted callback fires while the pending slot is occupied, it
returns `ERR_BUF` and leaves the socket, the slot included, as it was; when the slot is
empty it stores the new handle there, changes no other field, and returns `ERR_OK`. -/
theorem C4_tcp_accept_single_slot (w : World) (newpcb : pcb_t) (err : err_t) :
    (w.socket.incoming ≠ none →
      (_lwip_tcp_accept w newpcb err).2 = ERR_BUF ∧
      (_lwip_tcp_accept w newpcb err).1.socket = w.socket) ∧
    (w.socket.incoming = none →
      (_lwip_tcp_accept w newpcb err).2 = ERR_OK ∧
      (_lwip_tcp_accept w newpcb err).1.socket =
        { w.socket with incoming := some (incoming_t.connection newpcb) }) := by
  constructor
  · intro h
    simp [_lwip_tcp_accept, World.log, h]
  · intro h
    simp only [_lwip_tcp_accept, World.log, h, ne_eq, not_true_eq_false, if_false, true_and]
    unfold exec_user_callback
    split <;> simp [World.setSocket, World.log]

theorem C4_tcp_accept_single_slot_witness :
    (_lwip_tcp_accept
      (world_of (listener_socket (some (incoming_t.connection ⟨11, tcp_state.SYN_RCVD⟩))))
      ⟨12, tcp_state.SYN_RCVD⟩ 0).2 = ERR_BUF ∧
    (_lwip_tcp_accept
      (world_of (listener_socket (some (incoming_t.connection ⟨11, tcp_state.SYN_RCVD⟩))))
      ⟨12, tcp_state.SYN_RCVD⟩ 0).1.socket.incoming =
        some (incoming_t.connection ⟨11, tcp_state.SYN_RCVD⟩) :=
  have h := (C4_tcp_accept_single_slot
    (world_of (listener_socket (some (incoming_t.connection ⟨11, tcp_state.SYN_RCVD⟩))))
    ⟨12, tcp_state.SYN_RCVD⟩ 0).1 (by decide)
  ⟨h.1, by rw [h.2]; rfl⟩

/-- C5: on a stream socket with a live handle and timeout 0, `sendall` of a buffer longer
than the free send space the engine advertises fails with `EAGAIN` and leaves the world as it
was: no call is recorded, so no `tcp_write` was issued and no byte was handed over. -/
theorem C5_sendall_nonblocking_all_or_nothing (fuel : Nat) (w : World) (pcb : pcb_t)
    (buf : List byte)
    (htype : w.socket.type = MOD_NETWORK_SOCK_STREAM)
    (hpcb : w.socket.pcb = some pcb)
    (htimeout : w.socket.timeout = 0)
    (hbig : tcp_sndbuf w < buf.length) :
    lwip_socket_sendall fuel w buf = (w, Result.error EAGAIN) ∧
    (lwip_socket_sendall fuel w buf).1.calls = w.calls ∧
    (∀ h data, Call.tcp_write h data ∈ (lwip_socket_sendall fuel w buf).1.calls →
      Call.tcp_write h data ∈ w.calls) := by
  have h : lwip_socket_sendall fuel w buf = (w, Result.error EAGAIN) := by
    simp [lwip_socket_sendall, lwip_socket_check_connected, hpcb, htype, htimeout, hbig]
  rw [h]
  exact ⟨rfl, rfl, fun _ _ hm => hm⟩

theorem C5_sendall_nonblocking_all_or_nothing_witness :
    lwip_socket_sendall 5 { world_of (stream_socket none 2 0) with snd_buf := 3 } [1, 2, 3, 4] =
      ({ world_of (stream_socket none 2 0) with snd_buf := 3 }, Result.error EAGAIN) :=
  (C5_sendall_nonblocking_all_or_nothing 5 { world_of (stream_socket none 2 0) with snd_buf := 3 }
    ⟨7, tcp_state.ESTABLISHED⟩ [1, 2, 3, 4] rfl rfl rfl (by decide)).1

theorem next_status_socket (w : World) : w.next_status.2.socket = w.socket := by
  unfold World.next_status
  split <;> rfl

theorem next_status_calls (w : World) : w.next_status.2.calls = w.calls := by
  unfold World.next_status
  split <;> rfl

theorem close_shutdown_socket (w : World) (pcb : pcb_t) :
    (close_shutdown w pcb).2.socket = w.socket := by
  unfold close_shutdown
  split
  · simp only []
    split
    · simp only [World.log]
      exact next_status_socket _
    · exact next_status_socket _
  · split <;> rfl

theorem close_release_socket (w1 : World) (b : Bool) :
    (close_release w1 b).socket =
      { w1.socket with pcb := none, state := _ERR_BADF, incoming := none } := by
  unfold close_release
  cases h : w1.socket.incoming with
  | none => simp [World.setSocket, h]
  | some x => cases b <;> simp [World.setSocket, World.log, h]

theorem close_pcb_none (w : World) : (lwip_socket_close w).socket.pcb = none := by
  unfold lwip_socket_close
  cases hp : w.socket.pcb with
  | none => simp [hp]
  | some pcb => simp [close_release_socket]

/-- C6: `close` is idempotent: closing a closed socket gives back the same world, so the
socket is the same and the second `close` records no call at all (no `tcp_close`, `tcp_abort`,
`udp_remove` or `pbuf_free`). -/
theorem C6_close_idempotent (w : World) :
    lwip_socket_close (lwip_socket_close w) = lwip_socket_close w ∧
    (lwip_socket_close (lwip_socket_close w)).socket = (lwip_socket_close w).socket ∧
    (lwip_socket_close (lwip_socket_close w)).calls = (lwip_socket_close w).calls := by
  have h : lwip_socket_close (lwip_socket_close w) = lwip_socket_close w := by
    have hp := close_pcb_none w
    generalize lwip_socket_close w = v at hp
    simp [lwip_socket_close, hp]
  rw [h]
  exact ⟨rfl, rfl, rfl⟩

/-- C7, as the claim states it, fails on a socket whose handle the stream-error callback has
invalidated: `close` returns at once, the state stays the engine's error code (`-9`) and the
unread buffer stays in the inbox. -/
theorem C7_counterexample_close_after_error :
    world_after_reset.socket.pcb = none ∧
    (lwip_socket_close world_after_reset).socket.state = -9 ∧
    (lwip_socket_close world_after_reset).socket.incoming = some (incoming_t.pbuf ⟨[1, 2, 3]⟩) ∧
    ¬ ((lwip_socket_close world_after_reset).socket.pcb = none ∧
        (lwip_socket_close world_after_reset).socket.state = _ERR_BADF ∧
        (lwip_socket_close world_after_reset).socket.incoming = none) := by
  decide

/-- C7 (amended): for every socket with a live handle, of any type and in any state, after
`close` the handle is null, the state is `_ERR_BADF` (`-16`) and the inbox is empty; for a
socket whose handle is already null, the handle stays null and the state keeps its latched
value. -/
theorem C7_close_live_handle_ends_closed (w : World) :
    (w.socket.pcb ≠ none →
      (lwip_socket_close w).socket.pcb = none ∧
      (lwip_socket_close w).socket.state = _ERR_BADF ∧
      (lwip_socket_close w).socket.state = -16 ∧
      (lwip_socket_close w).socket.incoming = none) ∧
    (w.socket.pcb = none →
      (lwip_socket_close w).socket.pcb = none ∧
      (lwip_socket_close w).socket.state = w.socket.state) := by
  constructor
  · intro h
    cases hp : w.socket.pcb with
    | none => exact absurd hp h
    | some pcb => simp [lwip_socket_close, hp, close_release_socket, _ERR_BADF]
  · intro h
    simp [lwip_socket_close, h]

theorem C7_close_live_handle_ends_closed_witness :
    (lwip_socket_close (world_of (dgram_socket 0))).socket.state = -16 ∧
    (lwip_socket_close world_after_reset).socket.state = world_after_reset.socket.state :=
  ⟨((C7_close_live_handle_ends_closed (world_of (dgram_socket 0))).1 (by decide)).2.2.1,
    ((C7_close_live_handle_ends_closed world_after_reset).2 (by decide)).2⟩

theorem log_next_status_fst (w : World) (c : Call) : (w.log c).next_status.1 = w.next_status.1 := by
  unfold World.next_status World.log
  cases w.status <;> rfl

theorem close_shutdown_stream (w : World) (pcb : pcb_t)
    (htype : w.socket.type = MOD_NETWORK_SOCK_STREAM) :
    (close_shutdown w pcb).1 = decide (pcb.state = tcp_state.LISTEN) ∧
    (close_shutdown w pcb).2.calls = w.calls ++ stream_shutdown_calls w pcb := by
  unfold close_shutdown stream_shutdown_calls
  rw [if_pos htype]
  simp only []
  rw [log_next_status_fst]
  by_cases he : w.next_status.1 = ERR_OK
  · simp [he, next_status_calls, World.log]
  · simp [he, next_status_calls, World.log]

theorem close_shutdown_dgram (w : World) (pcb : pcb_t)
    (htype : w.socket.type = MOD_NETWORK_SOCK_DGRAM) :
    (close_shutdown w pcb).1 = false ∧
    (close_shutdown w pcb).2.calls = w.calls ++ [Call.udp_remove pcb] := by
  have h : w.socket.type ≠ MOD_NETWORK_SOCK_STREAM := by
    rw [htype]; decide
  unfold close_shutdown
  rw [if_neg h, if_pos htype]
  exact ⟨rfl, rfl⟩

theorem close_release_calls (w1 : World) (b : Bool) (x : incoming_t)
    (h : w1.socket.incoming = some x) :
    (close_release w1 b).calls =
      w1.calls ++ [if b then Call.tcp_abort x else Call.pbuf_free x] := by
  unfold close_release
  cases b <;> simp [World.setSocket, World.log, h]

/-- C8, as the claim states it, fails on a non-listener whose graceful `tcp_close` fails:
`close` then aborts a connection, the socket's own. -/
theorem C8_counterexample_abort_when_tcp_close_fails :
    (lwip_socket_close world_close_fails).calls =
      [Call.tcp_close ⟨7, tcp_state.ESTABLISHED⟩,
       Call.tcp_abort (incoming_t.connection ⟨7, tcp_state.ESTABLISHED⟩),
       Call.pbuf_free (incoming_t.pbuf ⟨[1, 2, 3]⟩)] ∧
    ¬ (∀ x, Call.tcp_abort x ∉ (lwip_socket_close world_close_fails).calls) := by
  refine ⟨by decide, fun h => ?_⟩
  exact h (incoming_t.connection ⟨7, tcp_state.ESTABLISHED⟩) (by decide)

/-- C8 (amended): `close` of a socket with a live handle whose slot holds `x` leaves the slot
empty.  A stream socket first shuts its own handle down (`tcp_close`, and `tcp_abort` of that
handle only when `tcp_close` fails); then a listener passes `x` to `tcp_abort` and never to
`pbuf_free`, and a non-listener passes `x` to `pbuf_free` and never to `tcp_abort`.  A datagram
socket calls `udp_remove` and `pbuf_free` of `x`, and aborts nothing. -/
theorem C8_close_disposes_of_slot (w : World) (pcb : pcb_t) (x : incoming_t)
    (hpcb : w.socket.pcb = some pcb)
    (hslot : w.socket.incoming = some x) :
    (lwip_socket_close w).socket.incoming = none ∧
    (w.socket.type = MOD_NETWORK_SOCK_STREAM → pcb.state = tcp_state.LISTEN →
      (lwip_socket_close w).calls =
        w.calls ++ stream_shutdown_calls w pcb ++ [Call.tcp_abort x]) ∧
    (w.socket.type = MOD_NETWORK_SOCK_STREAM → pcb.state ≠ tcp_state.LISTEN →
      (lwip_socket_close w).calls =
        w.calls ++ stream_shutdown_calls w pcb ++ [Call.pbuf_free x]) ∧
    (w.socket.type = MOD_NETWORK_SOCK_DGRAM →
      (lwip_socket_close w).calls = w.calls ++ [Call.udp_remove pcb, Call.pbuf_free x]) := by
  have hs : (close_shutdown w pcb).2.socket.incoming = some x := by
    rw [close_shutdown_socket, hslot]
  have hc : lwip_socket_close w = close_release (close_shutdown w pcb).2 (close_shutdown w pcb).1 := by
    simp [lwip_socket_close, hpcb]
  rw [hc, close_release_calls _ _ x hs]
  refine ⟨by simp [close_release_socket], ?_, ?_, ?_⟩
  · intro ht hl
    obtain ⟨h1, h2⟩ := close_shutdown_stream w pcb ht
    rw [h1, h2]
    simp [hl]
  · intro ht hl
    obtain ⟨h1, h2⟩ := close_shutdown_stream w pcb ht
    rw [h1, h2]
    simp [hl]
  · intro ht
    obtain ⟨h1, h2⟩ := close_shutdown_dgram w pcb ht
    rw [h1, h2]
    simp

theorem C8_close_disposes_of_slot_witness :
    (lwip_socket_close
      (world_of (listener_socket (some (incoming_t.connection ⟨11, tcp_state.SYN_RCVD⟩))))).calls =
      [Call.tcp_close ⟨3, tcp_state.LISTEN⟩,
       Call.tcp_abort (incoming_t.connection ⟨11, tcp_state.SYN_RCVD⟩)] :=
  (C8_close_disposes_of_slot
    (world_of (listener_socket (some (incoming_t.connection ⟨11, tcp_state.SYN_RCVD⟩))))
    ⟨3, tcp_state.LISTEN⟩ (incoming_t.connection ⟨11, tcp_state.SYN_RCVD⟩) rfl rfl).2.1 rfl rfl

/-- C9: on a stream socket with a live handle, state `PEER_CLOSED` and an empty inbox, `recv`
returns the empty byte string as a success, whatever the timeout (0, positive, -1 or any
other value), and leaves the world as it was: the socket is unchanged and nothing is called
(no pump, no sleep). -/
theorem C9_recv_after_peer_close_is_empty_success (w : World) (pcb : pcb_t) (len : Nat)
    (htype : w.socket.type = MOD_NETWORK_SOCK_STREAM)
    (hpcb : w.socket.pcb = some pcb)
    (hstate : w.socket.state = STATE_PEER_CLOSED)
    (hinbox : w.socket.incoming = none) :
    lwip_socket_recv w len = (w, Result.ok []) ∧
    (lwip_socket_recv w len).1.socket.state = STATE_PEER_CLOSED ∧
    (lwip_socket_recv w len).1.calls = w.calls := by
  have h : lwip_socket_recv w len = (w, Result.ok []) := by
    have hs : ¬ w.socket.state < 0 := by rw [hstate]; decide
    simp only [lwip_socket_recv, lwip_socket_check_connected, hpcb, htype, if_true,
      lwip_tcp_receive, STREAM_ERROR_CHECK, hs, if_false, hinbox]
    by_cases ht : w.socket.timeout = 0
    · simp [ht, hstate]
    · have hne : STATE_PEER_CLOSED ≠ STATE_CONNECTED := by decide
      simp [ht, tcp_receive_wait, hne, hstate, hinbox]
  rw [h]
  exact ⟨rfl, hstate, rfl⟩

theorem C9_recv_after_peer_close_is_empty_success_witness :
    lwip_socket_recv (world_of (stream_socket none STATE_PEER_CLOSED 0)) 10 =
      (world_of (stream_socket none STATE_PEER_CLOSED 0), Result.ok []) ∧
    lwip_socket_recv (world_of (stream_socket none STATE_PEER_CLOSED 250)) 10 =
      (world_of (stream_socket none STATE_PEER_CLOSED 250), Result.ok []) ∧
    lwip_socket_recv (world_of (stream_socket none STATE_PEER_CLOSED (-1))) 10 =
      (world_of (stream_socket none STATE_PEER_CLOSED (-1)), Result.ok []) :=
  ⟨(C9_recv_after_peer_close_is_empty_success (world_of (stream_socket none STATE_PEER_CLOSED 0))
      ⟨7, tcp_state.ESTABLISHED⟩ 10 rfl rfl rfl rfl).1,
    (C9_recv_after_peer_close_is_empty_success (world_of (stream_socket none STATE_PEER_CLOSED 250))
      ⟨7, tcp_state.ESTABLISHED⟩ 10 rfl rfl rfl rfl).1,
    (C9_recv_after_peer_close_is_empty_success (world_of (stream_socket none STATE_PEER_CLOSED (-1)))
      ⟨7, tcp_state.ESTABLISHED⟩ 10 rfl rfl rfl rfl).1⟩

/-- C10: `setblocking(false)` sets the timeout to 0 and nothing else; on a connected stream
socket with a live handle, timeout 0 and an empty inbox, `recv` fails with `EAGAIN` and leaves
the world as it was: the socket is unchanged, no call is recorded (no `poll_sockets`, no
`mp_hal_delay_ms`) and no pump of the script is used. -/
theorem C10_nonblocking_recv_on_empty_inbox (w : World) (pcb : pcb_t) (len : Nat)
    (htype : w.socket.type = MOD_NETWORK_SOCK_STREAM)
    (hpcb : w.socket.pcb = some pcb)
    (hstate : w.socket.state = STATE_CONNECTED)
    (hinbox : w.socket.incoming = none) :
    (lwip_socket_setblocking w false).socket = { w.socket with timeout := 0 } ∧
    lwip_socket_recv (lwip_socket_setblocking w false) len =
      (lwip_socket_setblocking w false, Result.error EAGAIN) ∧
    (lwip_socket_recv (lwip_socket_setblocking w false) len).1.calls = w.calls ∧
    (lwip_socket_recv (lwip_socket_setblocking w false) len).1.pumps = w.pumps ∧
    (w.socket.timeout = 0 → lwip_socket_recv w len = (w, Result.error EAGAIN)) := by
  have key : ∀ v : World, v.socket.type = MOD_NETWORK_SOCK_STREAM → v.socket.pcb = some pcb →
      v.socket.state = STATE_CONNECTED → v.socket.incoming = none → v.socket.timeout = 0 →
      lwip_socket_recv v len = (v, Result.error EAGAIN) := by
    intro v ht hp hst hi hto
    have hs : ¬ v.socket.state < 0 := by rw [hst]; decide
    have hc : v.socket.state ≠ STATE_PEER_CLOSED := by rw [hst]; decide
    simp [lwip_socket_recv, lwip_socket_check_connected, hp, ht, lwip_tcp_receive,
      STREAM_ERROR_CHECK, hs, hi, hto, hc]
  have h := key (lwip_socket_setblocking w false) htype hpcb hstate hinbox rfl
  rw [h]
  exact ⟨rfl, rfl, rfl, rfl, key w htype hpcb hstate hinbox⟩

theorem C10_nonblocking_recv_on_empty_inbox_witness :
    lwip_socket_recv (lwip_socket_setblocking (world_of (stream_socket none STATE_CONNECTED (-1))) false)
        4 =
      (lwip_socket_setblocking (world_of (stream_socket none STATE_CONNECTED (-1))) false,
        Result.error EAGAIN) :=
  (C10_nonblocking_recv_on_empty_inbox (world_of (stream_socket none STATE_CONNECTED (-1)))
    ⟨7, tcp_state.ESTABLISHED⟩ 4 rfl rfl rfl rfl).2.1

/-- C11: on a datagram socket with timeout 0 and an empty inbox, `recv` and `recvfrom`
make no call (no sleep, no pump) and leave the world as it was, but the error they report is
`ETIMEDOUT`, not `EAGAIN`; the stream helper reports `EAGAIN` in the same situation. -/
theorem C11_udp_nonblocking_recv_reports_etimedout :
    lwip_socket_recv (world_of (dgram_socket 0)) 10 =
      (world_of (dgram_socket 0), Result.error ETIMEDOUT) ∧
    lwip_socket_recvfrom (world_of (dgram_socket 0)) 10 =
      (world_of (dgram_socket 0), Result.error ETIMEDOUT) ∧
    ETIMEDOUT ≠ EAGAIN ∧ ETIMEDOUT ≠ EWOULDBLOCK ∧
    lwip_socket_recv (world_of (stream_socket none STATE_CONNECTED 0)) 10 =
      (world_of (stream_socket none STATE_CONNECTED 0), Result.error EAGAIN) := by
  decide

/-- On every socket without a pending datagram and with timeout 0, the retry loop of the
datagram helper runs zero times and `ETIMEDOUT` is reported, the world left as it was. -/
theorem udp_receive_nonblocking (w : World) (len : Nat)
    (hinbox : w.socket.incoming = none) (htimeout : w.socket.timeout = 0) :
    lwip_udp_receive w len = (w, Result.error ETIMEDOUT) := by
  simp [lwip_udp_receive, hinbox, htimeout, udp_receive_retry]

/-- C14, as the claim states it, fails at `ERR_IF`: both layouts translate it to `-1`, which
is not a positive error number. -/
theorem C14_counterexample_err_if_maps_to_minus_one :
    error_lookup true (-(-14)) = some (-1) ∧ error_lookup false (-(-15)) = some (-1) ∧
    ¬ (∀ (pre141 : Bool) (c : Int), -16 ≤ c → c ≤ -1 →
        ∃ e, error_lookup pre141 (-c) = some e ∧ 0 < e) := by
  refine ⟨by decide, by decide, fun h => ?_⟩
  obtain ⟨e, he, hpos⟩ := h true (-14) (by decide) (by decide)
  have h14 : error_lookup true (-(-14)) = some (-1) := by decide
  rw [h14] at he
  injection he with he
  omega

/-- C14 (amended): in each of the two layouts, every engine status code from -16 to -1 other
than `ERR_IF` (-14 before lwIP 1.4.1, -15 from 1.4.1 on) is translated to a strictly positive
error number; `ERR_IF` is translated to -1; and code 0 is translated to 0. -/
theorem C14_error_table_positive_except_err_if (pre141 : Bool) (c : Int)
    (hlo : -16 ≤ c) (hhi : c ≤ -1) :
    (c ≠ ERR_IF pre141 → ∃ e, error_lookup pre141 (-c) = some e ∧ 0 < e) ∧
    error_lookup pre141 (-(ERR_IF pre141)) = some (-1) ∧
    error_lookup pre141 0 = some 0 := by
  refine ⟨?_, by cases pre141 <;> decide, by cases pre141 <;> decide⟩
  intro hne
  interval_cases c <;> cases pre141 <;>
    first
    | exact absurd rfl hne
    | exact ⟨_, rfl, by decide⟩

theorem C14_error_table_positive_except_err_if_witness :
    (∃ e, error_lookup false (-(-9)) = some e ∧ 0 < e) ∧
    error_lookup false (-(ERR_IF false)) = some (-1) :=
  ⟨(C14_error_table_positive_except_err_if false (-9) (by decide) (by decide)).1 (by decide),
    (C14_error_table_positive_except_err_if false (-9) (by decide) (by decide)).2.1⟩

/-! ## Stream send -/

theorem log_next_status_snd (w : World) (c : Call) :
    (w.log c).next_status.2.calls = w.calls ++ [c] := by
  rw [next_status_calls]
  rfl

theorem tcp_send_write_ok (w : World) (pcb : pcb_t) (buf : List byte) (a : Nat)
    (hpcb : w.socket.pcb = some pcb) (hok : w.next_status.1 = ERR_OK) :
    (tcp_send_write w buf a).2 = Result.ok (u16 (min a buf.length)) ∧
    (tcp_send_write w buf a).1.calls =
      w.calls ++ [Call.tcp_write pcb (buf.take (u16 (min a buf.length)))] := by
  have h1 := log_next_status_fst w (Call.tcp_write pcb (buf.take (u16 (min a buf.length))))
  have h2 := log_next_status_snd w (Call.tcp_write pcb (buf.take (u16 (min a buf.length))))
  rw [hok] at h1
  simp only [tcp_send_write, hpcb]
  simp [h1, h2]

theorem tcp_send_write_fails (w : World) (pcb : pcb_t) (buf : List byte) (a : Nat) (x : Int)
    (hpcb : w.socket.pcb = some pcb) (hfail : w.next_status.1 ≠ ERR_OK)
    (hx : error_lookup w.pre141 (-w.next_status.1) = some x) :
    (tcp_send_write w buf a).2 = Result.error x ∧
    (tcp_send_write w buf a).1.calls =
      w.calls ++ [Call.tcp_write pcb (buf.take (u16 (min a buf.length)))] := by
  have h1 := log_next_status_fst w (Call.tcp_write pcb (buf.take (u16 (min a buf.length))))
  have h2 := log_next_status_snd w (Call.tcp_write pcb (buf.take (u16 (min a buf.length))))
  simp only [tcp_send_write, hpcb]
  simp [h1, h2, hfail, hx]

theorem lwip_tcp_send_space (w : World) (pcb : pcb_t) (buf : List byte)
    (hstate : 0 ≤ w.socket.state) (hpcb : w.socket.pcb = some pcb)
    (hpos : 0 < tcp_sndbuf w) (hsnd : tcp_sndbuf w < 65536) :
    lwip_tcp_send w buf = tcp_send_write w buf (tcp_sndbuf w) := by
  have hs : ¬ w.socket.state < 0 := by omega
  have hu : u16 (tcp_sndbuf w) = tcp_sndbuf w := u16_of_lt _ hsnd
  have hne : tcp_sndbuf w ≠ 0 := by omega
  simp [lwip_tcp_send, STREAM_ERROR_CHECK, hs, hpcb, hu, hne]

/-- C18: on a stream socket without latched error (and with its handle), when the engine
advertises `a > 0` bytes of free send space at the call, `send` makes one `tcp_write` with the
first `min(a, len)` bytes of the buffer, without waiting; if `tcp_write` returns `ERR_OK` the
result is the success value `min(a, len)`, and if it returns a code `e` that the table
translates to `x`, `send` fails with `x`. -/
theorem C18_send_writes_min_of_space_and_length (w : World) (pcb : pcb_t) (buf : List byte)
    (hstate : 0 ≤ w.socket.state)
    (hpcb : w.socket.pcb = some pcb)
    (hpos : 0 < tcp_sndbuf w)
    (hsnd : tcp_sndbuf w < 65536) :
    (lwip_tcp_send w buf).1.calls =
      w.calls ++ [Call.tcp_write pcb (buf.take (min (tcp_sndbuf w) buf.length))] ∧
    (w.next_status.1 = ERR_OK →
      (lwip_tcp_send w buf).2 = Result.ok (min (tcp_sndbuf w) buf.length)) ∧
    (∀ x, w.next_status.1 ≠ ERR_OK → error_lookup w.pre141 (-w.next_status.1) = some x →
      (lwip_tcp_send w buf).2 = Result.error x) := by
  rw [lwip_tcp_send_space w pcb buf hstate hpcb hpos hsnd]
  have hu : u16 (min (tcp_sndbuf w : Int) (buf.length : Int)) = min (tcp_sndbuf w) buf.length := by
    unfold u16
    omega
  refine ⟨?_, ?_, ?_⟩
  · by_cases hok : w.next_status.1 = ERR_OK
    · rw [(tcp_send_write_ok w pcb buf _ hpcb hok).2, hu]
    · have h2 := log_next_status_snd w
        (Call.tcp_write pcb (buf.take (u16 (min (tcp_sndbuf w) buf.length))))
      have h1 := log_next_status_fst w
        (Call.tcp_write pcb (buf.take (u16 (min (tcp_sndbuf w) buf.length))))
      rw [hu] at h1 h2
      simp only [tcp_send_write, hpcb]
      rw [hu, h1]
      simp only [ne_eq, hok, not_false_eq_true, if_true]
      split <;> exact h2
  · intro hok
    rw [(tcp_send_write_ok w pcb buf _ hpcb hok).1, hu]
  · intro x hfail hx
    exact (tcp_send_write_fails w pcb buf _ x hpcb hfail hx).1

theorem C18_send_writes_min_of_space_and_length_witness :
    (lwip_tcp_send world_small_sndbuf [1, 2, 3, 4, 5, 6, 7]).2 = Result.ok 5 ∧
    (lwip_tcp_send world_small_sndbuf [1, 2, 3, 4, 5, 6, 7]).1.calls =
      [Call.tcp_write ⟨7, tcp_state.ESTABLISHED⟩ [1, 2, 3, 4, 5]] :=
  have h := C18_send_writes_min_of_space_and_length world_small_sndbuf
    ⟨7, tcp_state.ESTABLISHED⟩ [1, 2, 3, 4, 5, 6, 7] (by decide) rfl (by decide) (by decide)
  ⟨h.2.1 rfl, h.1⟩

/-- C20: on a datagram socket (with its handle) whose inbox holds a datagram of length `L`,
`recv` with any `maxLength` returns the first `min(L, maxLength)` bytes of the datagram, frees
the buffer and leaves the inbox empty, so the rest of the datagram is gone. -/
theorem C20_udp_recv_consumes_whole_datagram (w : World) (pcb : pcb_t) (p : pbuf) (len : Nat)
    (htype : w.socket.type = MOD_NETWORK_SOCK_DGRAM)
    (hpcb : w.socket.pcb = some pcb)
    (hinbox : w.socket.incoming = some (incoming_t.pbuf p))
    (hlen : p.tot_len < 65536) :
    (lwip_socket_recv w len).2 = Result.ok (p.payload.take (min p.tot_len len)) ∧
    (lwip_socket_recv w len).1.socket.incoming = none ∧
    (lwip_socket_recv w len).1.calls = w.calls ++ [Call.pbuf_free (incoming_t.pbuf p)] := by
  have hcopy : u16 (if p.tot_len > len then (len : Int) else (p.tot_len : Int)) =
      min p.tot_len len := by
    split
    · rw [u16_of_lt len (by omega)]; omega
    · rw [u16_of_lt p.tot_len hlen]; omega
  have hne : w.socket.type ≠ MOD_NETWORK_SOCK_STREAM := by rw [htype]; decide
  have hrecv : lwip_socket_recv w len =
      ((w.log (Call.pbuf_free (incoming_t.pbuf p))).setSocket
          { w.socket with incoming := none },
        Result.ok (p.payload.take (min p.tot_len len))) := by
    have hds : MOD_NETWORK_SOCK_DGRAM ≠ MOD_NETWORK_SOCK_STREAM := by decide
    simp [lwip_socket_recv, lwip_socket_check_connected, hpcb, htype, hds,
      lwip_udp_receive, hinbox, udp_receive_copy, hcopy, pbuf_copy_partial,
      World.log, World.setSocket]
  rw [hrecv]
  exact ⟨rfl, rfl, rfl⟩

theorem C20_udp_recv_consumes_whole_datagram_witness :
    (lwip_socket_recv
      (_lwip_udp_incoming (world_of (dgram_socket (-1))) ⟨[1, 2, 3, 4, 5]⟩ 100 5000) 2).2 =
        Result.ok [1, 2] ∧
    (lwip_socket_recv
      (_lwip_udp_incoming (world_of (dgram_socket (-1))) ⟨[1, 2, 3, 4, 5]⟩ 100 5000)
        2).1.socket.incoming = none :=
  have h := C20_udp_recv_consumes_whole_datagram
    (_lwip_udp_incoming (world_of (dgram_socket (-1))) ⟨[1, 2, 3, 4, 5]⟩ 100 5000)
    ⟨9, tcp_state.CLOSED⟩ ⟨[1, 2, 3, 4, 5]⟩ 2 rfl rfl rfl (by decide)
  ⟨h.1, h.2.1⟩

/-! ## What the callbacks of a pump can and cannot do -/

theorem tcp_writes_append (a b : List Call) :
    tcp_writes (a ++ b) = tcp_writes a ++ tcp_writes b := by
  induction a with
  | nil => rfl
  | cons c rest ih => cases c <;> simp [tcp_writes, ih]

theorem sleeps_append (a b : List Call) : sleeps (a ++ b) = sleeps a ++ sleeps b := by
  induction a with
  | nil => rfl
  | cons c rest ih => cases c <;> simp [sleeps, ih]

theorem tcp_writes_from_callback (extra : List Call)
    (h : ∀ c ∈ extra, Call.from_callback c = true) : tcp_writes extra = [] := by
  induction extra with
  | nil => rfl
  | cons c rest ih =>
    have hc := h c (List.mem_cons_self _ _)
    have hr := ih (fun d hd => h d (List.mem_cons_of_mem _ hd))
    cases c <;> simp_all [tcp_writes, Call.from_callback]

theorem sleeps_from_callback (extra : List Call)
    (h : ∀ c ∈ extra, Call.from_callback c = true) : sleeps extra = [] := by
  induction extra with
  | nil => rfl
  | cons c rest ih =>
    have hc := h c (List.mem_cons_self _ _)
    have hr := ih (fun d hd => h d (List.mem_cons_of_mem _ hd))
    cases c <;> simp_all [sleeps, Call.from_callback]

theorem exec_user_callback_calls (w : World) :
    ∃ extra, (exec_user_callback w).calls = w.calls ++ extra ∧
      ∀ c ∈ extra, Call.from_callback c = true := by
  unfold exec_user_callback
  cases w.socket.callback with
  | none => exact ⟨[], by simp, by simp⟩
  | some cb => exact ⟨[Call.exec_user_callback cb], rfl, by simp [Call.from_callback]⟩

theorem exec_user_callback_rest (w : World) :
    (exec_user_callback w).socket = w.socket ∧ (exec_user_callback w).pumps = w.pumps ∧
    (exec_user_callback w).status = w.status ∧ (exec_user_callback w).pre141 = w.pre141 := by
  unfold exec_user_callback
  cases w.socket.callback <;> exact ⟨rfl, rfl, rfl, rfl⟩

theorem deliver_calls (w : World) (ev : Callback) :
    ∃ extra, (deliver w ev).calls = w.calls ++ extra ∧
      ∀ c ∈ extra, Call.from_callback c = true := by
  cases ev with
  | udp_incoming p addr port =>
    simp only [deliver, _lwip_udp_incoming]
    split
    · exact ⟨[Call.pbuf_free (incoming_t.pbuf p)], rfl, by simp [Call.from_callback]⟩
    · exact ⟨[], by simp [World.setSocket], by simp⟩
  | tcp_error err => exact ⟨[], by simp [deliver, _lwip_tcp_error, World.setSocket], by simp⟩
  | tcp_connected err =>
    exact ⟨[], by simp [deliver, _lwip_tcp_connected, World.setSocket], by simp⟩
  | tcp_accept newpcb err =>
    simp only [deliver, _lwip_tcp_accept]
    split
    · exact ⟨[Call.tcp_recv newpcb recv_handler._lwip_tcp_recv_unaccepted], rfl,
        by simp [Call.from_callback]⟩
    · obtain ⟨extra, h1, h2⟩ := exec_user_callback_calls
        ((w.log (Call.tcp_recv newpcb recv_handler._lwip_tcp_recv_unaccepted)).setSocket
          { (w.log (Call.tcp_recv newpcb recv_handler._lwip_tcp_recv_unaccepted)).socket with
            incoming := some (incoming_t.connection newpcb) })
      refine ⟨Call.tcp_recv newpcb recv_handler._lwip_tcp_recv_unaccepted :: extra, ?_, ?_⟩
      · rw [h1]; simp [World.setSocket, World.log]
      · intro c hc
        rcases List.mem_cons.mp hc with rfl | hc
        · rfl
        · exact h2 c hc
  | tcp_recv p err =>
    cases p with
    | none =>
      simp only [deliver, _lwip_tcp_recv]
      exact exec_user_callback_calls _
    | some b =>
      simp only [deliver, _lwip_tcp_recv]
      split
      · exact ⟨[], by simp, by simp⟩
      · exact exec_user_callback_calls _

theorem deliver_script (w : World) (ev : Callback) :
    (deliver w ev).pumps = w.pumps ∧ (deliver w ev).status = w.status ∧
    (deliver w ev).pre141 = w.pre141 := by
  cases ev with
  | udp_incoming p addr port =>
    simp only [deliver, _lwip_udp_incoming]
    split <;> exact ⟨rfl, rfl, rfl⟩
  | tcp_error err => exact ⟨rfl, rfl, rfl⟩
  | tcp_connected err => exact ⟨rfl, rfl, rfl⟩
  | tcp_accept newpcb err =>
    simp only [deliver, _lwip_tcp_accept]
    split
    · exact ⟨rfl, rfl, rfl⟩
    · exact (exec_user_callback_rest _).2
  | tcp_recv p err =>
    cases p with
    | none => exact (exec_user_callback_rest _).2
    | some b =>
      simp only [deliver, _lwip_tcp_recv]
      split
      · exact ⟨rfl, rfl, rfl⟩
      · exact (exec_user_callback_rest _).2

theorem deliver_keeps_state (w : World) (ev : Callback) (h : keeps_state ev = true) :
    (deliver w ev).socket.state = w.socket.state := by
  cases ev with
  | udp_incoming p addr port =>
    simp only [deliver, _lwip_udp_incoming]
    split <;> rfl
  | tcp_error err => simp [keeps_state] at h
  | tcp_connected err => simp [keeps_state] at h
  | tcp_accept newpcb err =>
    simp only [deliver, _lwip_tcp_accept]
    split
    · rfl
    · rw [(exec_user_callback_rest _).1]; rfl
  | tcp_recv p err =>
    cases p with
    | none => simp [keeps_state] at h
    | some b =>
      simp only [deliver, _lwip_tcp_recv]
      split
      · rfl
      · rw [(exec_user_callback_rest _).1]; rfl

/-- Once a stream socket is connected, callbacks keep it connected or peer-closed for as
long as it has its handle. -/
theorem deliver_connected_or_gone (w : World) (ev : Callback)
    (h : STATE_CONNECTED ≤ w.socket.state ∨ w.socket.pcb = none) :
    STATE_CONNECTED ≤ (deliver w ev).socket.state ∨ (deliver w ev).socket.pcb = none := by
  cases ev with
  | udp_incoming p addr port =>
    simp only [deliver, _lwip_udp_incoming]
    split <;> exact h
  | tcp_error err => exact Or.inr rfl
  | tcp_connected err => exact Or.inl (le_refl _)
  | tcp_accept newpcb err =>
    simp only [deliver, _lwip_tcp_accept]
    split
    · exact h
    · rw [(exec_user_callback_rest _).1]; exact h
  | tcp_recv p err =>
    cases p with
    | none =>
      simp only [deliver, _lwip_tcp_recv]
      rw [(exec_user_callback_rest _).1]
      have hle : STATE_CONNECTED ≤ STATE_PEER_CLOSED := by decide
      exact Or.inl hle
    | some b =>
      simp only [deliver, _lwip_tcp_recv]
      split
      · exact h
      · rw [(exec_user_callback_rest _).1]; exact h

theorem foldl_deliver_calls (evs : List Callback) :
    ∀ w : World, ∃ extra, (evs.foldl deliver w).calls = w.calls ++ extra ∧
      ∀ c ∈ extra, Call.from_callback c = true := by
  induction evs with
  | nil => intro w; exact ⟨[], by simp, by simp⟩
  | cons ev rest ih =>
    intro w
    obtain ⟨e1, h1, g1⟩ := deliver_calls w ev
    obtain ⟨e2, h2, g2⟩ := ih (deliver w ev)
    refine ⟨e1 ++ e2, ?_, ?_⟩
    · simp only [List.foldl_cons]
      rw [h2, h1, List.append_assoc]
    · intro c hc
      rcases List.mem_append.mp hc with hc | hc
      · exact g1 c hc
      · exact g2 c hc

theorem foldl_deliver_script (evs : List Callback) :
    ∀ w : World, (evs.foldl deliver w).pumps = w.pumps ∧
      (evs.foldl deliver w).status = w.status ∧ (evs.foldl deliver w).pre141 = w.pre141 := by
  induction evs with
  | nil => intro w; exact ⟨rfl, rfl, rfl⟩
  | cons ev rest ih =>
    intro w
    obtain ⟨a, b, c⟩ := ih (deliver w ev)
    obtain ⟨a1, b1, c1⟩ := deliver_script w ev
    simp only [List.foldl_cons]
    exact ⟨a.trans a1, b.trans b1, c.trans c1⟩

theorem foldl_deliver_keeps_state (evs : List Callback) :
    ∀ w : World, (∀ ev ∈ evs, keeps_state ev = true) →
      (evs.foldl deliver w).socket.state = w.socket.state := by
  induction evs with
  | nil => intro w _; rfl
  | cons ev rest ih =>
    intro w h
    simp only [List.foldl_cons]
    rw [ih (deliver w ev) (fun e he => h e (List.mem_cons_of_mem _ he)),
      deliver_keeps_state w ev (h ev (List.mem_cons_self _ _))]

theorem foldl_deliver_connected_or_gone (evs : List Callback) :
    ∀ w : World, (STATE_CONNECTED ≤ w.socket.state ∨ w.socket.pcb = none) →
      (STATE_CONNECTED ≤ (evs.foldl deliver w).socket.state ∨
        (evs.foldl deliver w).socket.pcb = none) := by
  induction evs with
  | nil => intro w h; exact h
  | cons ev rest ih =>
    intro w h
    simp only [List.foldl_cons]
    exact ih _ (deliver_connected_or_gone w ev h)

theorem poll_sockets_effect (w w1 : World) (h : poll_sockets w = some w1) :
    tcp_writes w1.calls = tcp_writes w.calls ∧
    ((STATE_CONNECTED ≤ w.socket.state ∨ w.socket.pcb = none) →
      (STATE_CONNECTED ≤ w1.socket.state ∨ w1.socket.pcb = none)) := by
  unfold poll_sockets at h
  cases hp : w.pumps with
  | nil => simp [hp] at h
  | cons p rest =>
    simp only [hp, Option.some.injEq] at h
    subst h
    obtain ⟨extra, h1, h2⟩ := foldl_deliver_calls p.events
      ({ w with pumps := rest }.log Call.poll_sockets)
    refine ⟨?_, fun hinv => ?_⟩
    · show tcp_writes (p.events.foldl deliver
        ({ w with pumps := rest }.log Call.poll_sockets)).calls = tcp_writes w.calls
      rw [h1, tcp_writes_append, tcp_writes_from_callback extra h2]
      simp [World.log, tcp_writes_append, tcp_writes]
    · exact foldl_deliver_connected_or_gone p.events _ hinv

theorem mp_hal_delay_ms_effect (w : World) (ms : Nat) (p : Pump) (rest : List Pump)
    (hp : w.pumps = p :: rest) :
    ∃ w1, mp_hal_delay_ms w ms = some w1 ∧ w1.pumps = rest ∧
      sleeps w1.calls = sleeps w.calls ++ [ms] ∧
      ((∀ ev ∈ p.events, keeps_state ev = true) → w1.socket.state = w.socket.state) := by
  have heq : mp_hal_delay_ms w ms =
      some { p.events.foldl deliver ({ w with pumps := rest }.log (Call.mp_hal_delay_ms ms)) with
        now := (p.events.foldl deliver
          ({ w with pumps := rest }.log (Call.mp_hal_delay_ms ms))).now + ms,
        snd_buf := p.snd_buf } := by
    simp only [mp_hal_delay_ms, hp]
  refine ⟨_, heq, ?_, ?_, ?_⟩
  · exact (foldl_deliver_script p.events _).1
  · obtain ⟨extra, h1, h2⟩ := foldl_deliver_calls p.events
      ({ w with pumps := rest }.log (Call.mp_hal_delay_ms ms))
    show sleeps (p.events.foldl deliver
      ({ w with pumps := rest }.log (Call.mp_hal_delay_ms ms))).calls = sleeps w.calls ++ [ms]
    rw [h1, sleeps_append, sleeps_from_callback extra h2]
    simp [World.log, sleeps_append, sleeps]
  · intro hq
    exact foldl_deliver_keeps_state p.events _ hq

/-! ## The wait of `lwip_tcp_send` -/

theorem tcp_send_wait_effect (fuel : Nat) :
    ∀ (start a : Nat) (w : World),
      (STATE_CONNECTED ≤ w.socket.state ∨ w.socket.pcb = none) →
      tcp_writes (tcp_send_wait fuel start a w).world.calls = tcp_writes w.calls ∧
      (∀ w1 a1, tcp_send_wait fuel start a w = Wait.done w1 a1 → w1.socket.pcb ≠ none →
        a1 = u16 (tcp_sndbuf w1) ∧ 16 ≤ a1) := by
  induction fuel with
  | zero =>
    intro start a w _
    exact ⟨rfl, fun w1 a1 h => by simp [tcp_send_wait] at h⟩
  | succ n ih =>
    intro start a w hinv
    unfold tcp_send_wait
    by_cases hs : w.socket.state ≥ STATE_CONNECTED
    · rw [if_pos hs]
      cases hp : w.socket.pcb with
      | none => exact ⟨rfl, fun w1 a1 h => by simp at h⟩
      | some pcb =>
        simp only []
        by_cases hlt : u16 (tcp_sndbuf w) < 16
        · rw [if_pos hlt]
          split
          · exact ⟨rfl, fun w1 a1 h => by simp at h⟩
          · cases hpoll : poll_sockets w with
            | none => exact ⟨rfl, fun w1 a1 h => by simp at h⟩
            | some w2 =>
              simp only []
              obtain ⟨hw, hi⟩ := poll_sockets_effect w w2 hpoll
              obtain ⟨ih1, ih2⟩ := ih start (u16 (tcp_sndbuf w)) w2 (hi hinv)
              exact ⟨ih1.trans hw, ih2⟩
        · rw [if_neg hlt]
          refine ⟨rfl, fun w1 a1 h _ => ?_⟩
          simp only [Wait.done.injEq] at h
          obtain ⟨rfl, rfl⟩ := h
          exact ⟨rfl, by omega⟩
    · rw [if_neg hs]
      refine ⟨rfl, fun w1 a1 h hne => ?_⟩
      simp only [Wait.done.injEq] at h
      obtain ⟨rfl, rfl⟩ := h
      rcases hinv with hc | hn
      · exact absurd hc hs
      · exact absurd hn hne

theorem STREAM_ERROR_CHECK_none (w : World)
    (h : (STREAM_ERROR_CHECK w : Option (Result Nat)) = none) :
    ¬ w.socket.state < 0 ∧ w.socket.pcb ≠ none := by
  unfold STREAM_ERROR_CHECK at h
  by_cases hs : w.socket.state < 0
  · rw [if_pos hs] at h
    split at h <;> simp at h
  · rw [if_neg hs] at h
    by_cases hp : w.socket.pcb = none
    · rw [if_pos hp] at h; simp at h
    · exact ⟨hs, hp⟩

theorem STREAM_ERROR_CHECK_not_ok (w : World) (r : Result Nat)
    (h : (STREAM_ERROR_CHECK w : Option (Result Nat)) = some r) : ∀ n, r ≠ Result.ok n := by
  intro n hn
  subst hn
  unfold STREAM_ERROR_CHECK at h
  split at h
  · split at h <;> simp at h
  · split at h <;> simp at h

theorem tcp_send_write_writes (w : World) (buf : List byte) (a : Nat) :
    (∀ w1 n, tcp_send_write w buf a = (w1, Result.ok n) →
      tcp_writes w1.calls = tcp_writes w.calls ++ [buf.take n]) := by
  intro w1 n h
  unfold tcp_send_write at h
  cases hp : w.socket.pcb with
  | none => simp [hp] at h
  | some pcb =>
    simp only [hp] at h
    have h2 := log_next_status_snd w (Call.tcp_write pcb (buf.take (u16 (min a buf.length))))
    split at h
    · split at h <;> simp at h
    · simp only [Prod.mk.injEq, Result.ok.injEq] at h
      obtain ⟨rfl, rfl⟩ := h
      show tcp_writes
        (w.log (Call.tcp_write pcb (buf.take (u16 (min a buf.length))))).next_status.2.calls = _
      rw [h2, tcp_writes_append]
      simp [tcp_writes]

/-- C17, as the claim states it, fails when the engine advertises between 1 and 15 free
bytes at the call: `send` on a connected blocking socket writes at once, here 5 bytes while
the free space is 5. -/
theorem C17_counterexample_write_below_16 :
    world_small_sndbuf.socket.state = STATE_CONNECTED ∧
    world_small_sndbuf.socket.timeout ≠ 0 ∧
    tcp_sndbuf world_small_sndbuf = 5 ∧
    lwip_tcp_send world_small_sndbuf [1, 2, 3, 4, 5, 6, 7, 8, 9, 10] =
      ({ world_small_sndbuf with
          snd_buf := 0,
          calls := [Call.tcp_write ⟨7, tcp_state.ESTABLISHED⟩ [1, 2, 3, 4, 5]] },
        Result.ok 5) := by
  decide

/-- C17 (amended): on a connected stream socket with its handle, when the engine advertises no
free send space at the call, `send` either issues no `tcp_write` at all or issues it in a world
reached by pumping alone in which the engine advertises at least 16 free bytes; when the
engine advertises some free space at the call, be it less than 16 bytes, `send` writes at once
without waiting. -/
theorem C17_send_waits_for_16_only_when_full (w : World) (pcb : pcb_t) (buf : List byte)
    (hpcb : w.socket.pcb = some pcb)
    (hstate : w.socket.state = STATE_CONNECTED)
    (hsnd : tcp_sndbuf w < 65536) :
    (tcp_sndbuf w = 0 →
      tcp_writes (lwip_tcp_send w buf).1.calls = tcp_writes w.calls ∨
      ∃ w1 a1, tcp_writes w1.calls = tcp_writes w.calls ∧ a1 = u16 (tcp_sndbuf w1) ∧ 16 ≤ a1 ∧
        lwip_tcp_send w buf = tcp_send_write w1 buf a1) ∧
    (0 < tcp_sndbuf w → lwip_tcp_send w buf = tcp_send_write w buf (tcp_sndbuf w)) := by
  have hs0 : (0 : Int) ≤ w.socket.state := by rw [hstate]; decide
  refine ⟨fun hz => ?_, fun hpos => lwip_tcp_send_space w pcb buf hs0 hpcb hpos hsnd⟩
  have hs : ¬ w.socket.state < 0 := by omega
  have hu : u16 (tcp_sndbuf w) = 0 := by rw [hz]; rfl
  have hinv : STATE_CONNECTED ≤ w.socket.state ∨ w.socket.pcb = none :=
    Or.inl (by rw [hstate])
  obtain ⟨e1, e2⟩ := tcp_send_wait_effect (w.pumps.length + 1) w.now 0 w hinv
  simp only [lwip_tcp_send, STREAM_ERROR_CHECK, hs, hpcb, hu, if_false, if_true]
  simp only [reduceCtorEq, if_false]
  by_cases ht : w.socket.timeout = 0
  · rw [if_pos ht]
    exact Or.inl rfl
  · rw [if_neg ht]
    cases hW : tcp_send_wait (w.pumps.length + 1) w.now 0 w with
    | pending w1 => rw [hW] at e1; exact Or.inl e1
    | fault w1 f => rw [hW] at e1; exact Or.inl e1
    | timedout w1 => rw [hW] at e1; exact Or.inl e1
    | done w1 a1 =>
      rw [hW] at e1
      simp only []
      by_cases hs1 : w1.socket.state < 0
      · rw [if_pos hs1]
        cases error_lookup w1.pre141 (-w1.socket.state) <;> exact Or.inl e1
      · rw [if_neg hs1]
        by_cases hp1 : w1.socket.pcb = none
        · rw [if_pos hp1]
          exact Or.inl e1
        · rw [if_neg hp1]
          obtain ⟨ha, h16⟩ := e2 w1 a1 hW hp1
          exact Or.inr ⟨w1, a1, e1, ha, h16, rfl⟩

theorem C17_send_waits_for_16_only_when_full_witness :
    lwip_tcp_send world_small_sndbuf [1, 2, 3, 4, 5, 6, 7, 8, 9, 10] =
      tcp_send_write world_small_sndbuf [1, 2, 3, 4, 5, 6, 7, 8, 9, 10] 5 :=
  (C17_send_waits_for_16_only_when_full world_small_sndbuf ⟨7, tcp_state.ESTABLISHED⟩
    [1, 2, 3, 4, 5, 6, 7, 8, 9, 10] rfl rfl (by decide)).2 (by decide)

/-! ## `sendall` -/

theorem tcp_send_wait_writes (fuel : Nat) :
    ∀ (start a : Nat) (w : World),
      tcp_writes (tcp_send_wait fuel start a w).world.calls = tcp_writes w.calls := by
  induction fuel with
  | zero => intro start a w; rfl
  | succ n ih =>
    intro start a w
    unfold tcp_send_wait
    split
    · cases w.socket.pcb with
      | none => rfl
      | some pcb =>
        simp only []
        split
        · split
          · rfl
          · cases hpoll : poll_sockets w with
            | none => rfl
            | some w2 =>
              simp only []
              exact (ih start _ w2).trans (poll_sockets_effect w w2 hpoll).1
        · rfl
    · rfl

theorem lwip_tcp_send_ok_writes (w w1 : World) (buf : List byte) (n : Nat)
    (h : lwip_tcp_send w buf = (w1, Result.ok n)) :
    tcp_writes w1.calls = tcp_writes w.calls ++ [buf.take n] := by
  unfold lwip_tcp_send at h
  cases hc : (STREAM_ERROR_CHECK w : Option (Result Nat)) with
  | some r =>
    simp only [hc, Prod.mk.injEq] at h
    exact absurd h.2 (STREAM_ERROR_CHECK_not_ok w r hc n)
  | none =>
    simp only [hc] at h
    split at h
    · split at h
      · simp at h
      · have hw := tcp_send_wait_writes (w.pumps.length + 1) w.now (u16 (tcp_sndbuf w)) w
        cases hW : tcp_send_wait (w.pumps.length + 1) w.now (u16 (tcp_sndbuf w)) w with
        | pending w2 => simp [hW] at h
        | fault w2 f => simp [hW] at h
        | timedout w2 => simp [hW] at h
        | done w2 a2 =>
          rw [hW] at hw
          simp only [hW] at h
          cases hc2 : (STREAM_ERROR_CHECK w2 : Option (Result Nat)) with
          | some r =>
            simp only [hc2, Prod.mk.injEq] at h
            exact absurd h.2 (STREAM_ERROR_CHECK_not_ok w2 r hc2 n)
          | none =>
            simp only [hc2] at h
            rw [tcp_send_write_writes w2 buf a2 w1 n h]
            exact congrArg (· ++ [buf.take n]) hw
    · exact tcp_send_write_writes w buf _ w1 n h

theorem sendall_loop_writes (fuel : Nat) :
    ∀ (w w1 : World) (buf : List byte), sendall_loop fuel w buf = (w1, Result.ok ()) →
      ∃ chunks, tcp_writes w1.calls = tcp_writes w.calls ++ chunks ∧
        consumes buf chunks ∧ chunks.flatten = buf := by
  induction fuel with
  | zero =>
    intro w w1 buf h
    unfold sendall_loop at h
    by_cases hb : buf.length ≠ 0
    · simp [hb] at h
    · simp only [hb, if_false, Prod.mk.injEq, and_true] at h
      subst h
      have : buf = [] := List.length_eq_zero.mp (by omega)
      subst this
      exact ⟨[], by simp, rfl, rfl⟩
  | succ k ih =>
    intro w w1 buf h
    unfold sendall_loop at h
    by_cases hb : buf.length ≠ 0
    · rw [if_pos hb] at h
      cases hsend : lwip_tcp_send w buf with
      | mk w2 r =>
        cases r with
        | ok n =>
          simp only [hsend] at h
          obtain ⟨chunks, h1, h2, h3⟩ := ih w2 w1 (buf.drop n) h
          have hw := lwip_tcp_send_ok_writes w w2 buf n hsend
          refine ⟨buf.take n :: chunks, ?_, ?_, ?_⟩
          · rw [h1, hw, List.append_assoc]; rfl
          · have hlen : (buf.take n).length ≤ n := by simp
            have htake : buf.take (buf.take n).length = buf.take n := by
              rw [List.length_take]
              by_cases hn : n ≤ buf.length
              · rw [Nat.min_eq_left hn]
              · rw [Nat.min_eq_right (by omega), List.take_of_length_le (le_refl _),
                  List.take_of_length_le (by omega)]
            have hdrop : buf.drop (buf.take n).length = buf.drop n := by
              rw [List.length_take]
              by_cases hn : n ≤ buf.length
              · rw [Nat.min_eq_left hn]
              · rw [Nat.min_eq_right (by omega), List.drop_of_length_le (le_refl _),
                  List.drop_of_length_le (by omega)]
            exact ⟨htake.symm, by rw [hdrop]; exact h2⟩
          · simp only [List.flatten_cons, h3, List.take_append_drop]
        | error e => simp [hsend] at h
        | fault f => simp [hsend] at h
        | not_implemented => simp [hsend] at h
        | value_error e => simp [hsend] at h
        | pending => simp [hsend] at h
    · simp only [hb, if_false, Prod.mk.injEq, and_true] at h
      subst h
      have : buf = [] := List.length_eq_zero.mp (by omega)
      subst this
      exact ⟨[], by simp, rfl, rfl⟩

/-- C19: on a stream socket, if `sendall` returns successfully, the chunks it handed to
`tcp_write`, in call order, are each the leading part of what was not yet sent, and
concatenated they are the input buffer. -/
theorem C19_sendall_writes_buffer_in_order (fuel : Nat) (w w1 : World) (buf : List byte)
    (htype : w.socket.type = MOD_NETWORK_SOCK_STREAM)
    (hok : lwip_socket_sendall fuel w buf = (w1, Result.ok ())) :
    ∃ chunks, tcp_writes w1.calls = tcp_writes w.calls ++ chunks ∧
      consumes buf chunks ∧ chunks.flatten = buf := by
  unfold lwip_socket_sendall lwip_socket_check_connected at hok
  cases hp : w.socket.pcb with
  | none =>
    simp only [hp] at hok
    cases hl : error_lookup w.pre141 (-w.socket.state) <;> simp [hl] at hok
  | some pcb =>
    simp only [hp, htype, if_true] at hok
    split at hok
    · simp at hok
    · exact sendall_loop_writes fuel w w1 buf hok

theorem C19_sendall_writes_buffer_in_order_witness :
    ∃ chunks,
      tcp_writes (lwip_socket_sendall 10
        { world_of (stream_socket none STATE_CONNECTED (-1)) with
          snd_buf := 3, pumps := [⟨[], 0, 20⟩] } [1, 2, 3, 4, 5, 6, 7, 8, 9, 10]).1.calls =
        tcp_writes [] ++ chunks ∧
      consumes [1, 2, 3, 4, 5, 6, 7, 8, 9, 10] chunks ∧
      chunks.flatten = [1, 2, 3, 4, 5, 6, 7, 8, 9, 10] :=
  C19_sendall_writes_buffer_in_order 10
    { world_of (stream_socket none STATE_CONNECTED (-1)) with snd_buf := 3, pumps := [⟨[], 0, 20⟩] }
    _ [1, 2, 3, 4, 5, 6, 7, 8, 9, 10] rfl (by decide)

/-! ## `connect` -/

theorem next_status_rest (w : World) :
    w.next_status.2.pumps = w.pumps ∧ w.next_status.2.pre141 = w.pre141 := by
  unfold World.next_status
  split <;> exact ⟨rfl, rfl⟩

theorem connect_wait_retry_quiet (n : Nat) :
    ∀ w : World, n ≤ w.pumps.length →
      (∀ p ∈ w.pumps.take n, ∀ ev ∈ p.events, keeps_state ev = true) →
      w.socket.state = STATE_CONNECTING →
      ∃ w1, connect_wait_retry n w = some w1 ∧ w1.socket.state = STATE_CONNECTING ∧
        sleeps w1.calls = sleeps w.calls ++ List.replicate n 100 := by
  induction n with
  | zero => intro w _ _ hs; exact ⟨w, rfl, hs, by simp⟩
  | succ k ih =>
    intro w hlen hq hs
    cases hp : w.pumps with
    | nil => rw [hp] at hlen; simp at hlen
    | cons p rest =>
      rw [hp] at hlen hq
      obtain ⟨w2, h1, h2, h3, h4⟩ := mp_hal_delay_ms_effect w 100 p rest hp
      have hstate2 : w2.socket.state = STATE_CONNECTING := by
        rw [h4 (fun ev hev => hq p (by simp) ev hev), hs]
      have hq2 : ∀ q ∈ w2.pumps.take k, ∀ ev ∈ q.events, keeps_state ev = true := by
        intro q hq' ev hev
        rw [h2] at hq'
        exact hq q (by simp [List.take_succ_cons, hq']) ev hev
      obtain ⟨w3, g1, g2, g3⟩ := ih w2 (by rw [h2]; simpa using hlen) hq2 hstate2
      refine ⟨w3, ?_, g2, ?_⟩
      · simp only [connect_wait_retry, h1, hstate2, ne_eq, not_true_eq_false, if_false]
        exact g1
      · rw [g3, h3, List.append_assoc, List.replicate_succ]
        rfl

/-- C12: on a stream socket in state `NEW` with its handle and a timeout of `T > 0` ms, when
the implicit interface step passes, `tcp_connect` returns `ERR_OK` and no callback that
changes the state fires during the wait, `connect` sleeps `floor(T / 100)` times for 100 ms,
then fails with `ETIMEDOUT`, and the state is left at `CONNECTING`. -/
theorem C12_connect_times_out_after_budget (r : Registry) (w : World) (pcb : pcb_t)
    (dest : ip_addr_t) (port : Nat) (T : Int)
    (htype : w.socket.type = MOD_NETWORK_SOCK_STREAM)
    (hpcb : w.socket.pcb = some pcb)
    (hstate : w.socket.state = STATE_NEW)
    (hT : 0 < T)
    (htimeout : w.socket.timeout = T)
    (hiface : (connect_add_interface r).2 = none)
    (hconnect : w.next_status.1 = ERR_OK)
    (hscript : T.toNat / 100 ≤ w.pumps.length)
    (hquiet : ∀ p ∈ w.pumps.take (T.toNat / 100), ∀ ev ∈ p.events, keeps_state ev = true) :
    (lwip_socket_connect r w dest port).2.2 = Result.error ETIMEDOUT ∧
    (lwip_socket_connect r w dest port).2.1.socket.state = STATE_CONNECTING ∧
    sleeps (lwip_socket_connect r w dest port).2.1.calls =
      sleeps w.calls ++ List.replicate (T.toNat / 100) 100 := by
  have hst1 : ((((w.log (Call.tcp_recv pcb recv_handler._lwip_tcp_recv)).setSocket
      { (w.log (Call.tcp_recv pcb recv_handler._lwip_tcp_recv)).socket with
        state := STATE_CONNECTING }).log (Call.tcp_connect pcb dest port)).next_status).1 =
      ERR_OK := by
    rw [← hconnect]
    unfold World.next_status World.log World.setSocket
    cases w.status <;> rfl
  -- the world in which the wait starts
  generalize hw3 : ((((w.log (Call.tcp_recv pcb recv_handler._lwip_tcp_recv)).setSocket
      { (w.log (Call.tcp_recv pcb recv_handler._lwip_tcp_recv)).socket with
        state := STATE_CONNECTING }).log (Call.tcp_connect pcb dest port)).next_status).2 = v
      at hst1
  have hv_socket : v.socket = { w.socket with state := STATE_CONNECTING } := by
    rw [← hw3, next_status_socket]; rfl
  have hv_pumps : v.pumps = w.pumps := by
    rw [← hw3, (next_status_rest _).1]; rfl
  have hv_calls : sleeps v.calls = sleeps w.calls := by
    rw [← hw3, next_status_calls]
    simp [World.log, World.setSocket, sleeps_append, sleeps]
  obtain ⟨w4, g1, g2, g3⟩ := connect_wait_retry_quiet (T.toNat / 100)
    (v.setSocket { v.socket with peer_port := port, peer := dest })
    (by simpa [World.setSocket, hv_pumps] using hscript)
    (by simpa [World.setSocket, hv_pumps] using hquiet)
    (by simp [World.setSocket, hv_socket])
  have hT1 : T ≠ -1 := by omega
  have hN : ¬ STATE_NEW ≠ STATE_NEW := by simp
  cases hci : connect_add_interface r with
  | mk r1 o =>
    rw [hci] at hiface
    simp only at hiface
    subst hiface
    have hres : lwip_socket_connect r w dest port = (r1, w4, Result.error ETIMEDOUT) := by
      simp only [lwip_socket_connect, hpcb, hci, htype, if_true, hstate, hN, if_false,
        connect_stream]
      rw [hw3]
      simp only [hst1, ne_eq, not_true_eq_false, if_false]
      have hto : (v.setSocket { v.socket with peer_port := port, peer := dest }).socket.timeout
          = T := by
        simp [World.setSocket, hv_socket, htimeout]
      simp only [hto, hT1, ne_eq, not_false_eq_true, if_true, g1, g2]
    rw [hres]
    refine ⟨rfl, g2, ?_⟩
    rw [g3]
    simp [World.setSocket, hv_calls]

theorem C12_connect_times_out_after_budget_witness :
    (lwip_socket_connect registry_one_vif
      { world_of (stream_socket none STATE_NEW 200) with pumps := [⟨[], 0, 0⟩, ⟨[], 0, 0⟩] }
      77 80).2.2 = Result.error ETIMEDOUT ∧
    sleeps (lwip_socket_connect registry_one_vif
      { world_of (stream_socket none STATE_NEW 200) with pumps := [⟨[], 0, 0⟩, ⟨[], 0, 0⟩] }
      77 80).2.1.calls = [100, 100] :=
  have h := C12_connect_times_out_after_budget registry_one_vif
    { world_of (stream_socket none STATE_NEW 200) with pumps := [⟨[], 0, 0⟩, ⟨[], 0, 0⟩] }
    ⟨7, tcp_state.ESTABLISHED⟩ 77 80 200 rfl rfl rfl (by decide) rfl (by decide) rfl
    (by decide) (by decide)
  ⟨h.1, h.2.2⟩

/-- C15: a socket is created, connected and closed; the peer's FIN then makes the engine
call the stream-received callback, which `close` left registered, with a null buffer.
Afterwards the handle is null and the state is `PEER_CLOSED`: neither side of the invariant
holds, and the next `recv` indexes the error table at `-3`. -/
theorem C15_closed_socket_left_without_handle_or_error :
    world_fresh.socket.state = STATE_NEW ∧ world_fresh.socket.pcb ≠ none ∧
    world_connected.socket.state = STATE_CONNECTED ∧ world_connected.socket.pcb ≠ none ∧
    world_closed.socket.state = _ERR_BADF ∧ world_closed.socket.pcb = none ∧
    world_closed_then_fin.socket.pcb = none ∧
    world_closed_then_fin.socket.state = STATE_PEER_CLOSED ∧
    ¬ (world_closed_then_fin.socket.pcb ≠ none ∨ world_closed_then_fin.socket.state < 0) ∧
    (lwip_socket_recv world_closed_then_fin 10).2 = Result.fault Fault.index_out_of_range := by
  decide

/-- C16: the stream-received callback with a null buffer takes a closed socket from the
closed value `_ERR_BADF` to `PEER_CLOSED`, and a socket with a latched engine error from the
error code to `PEER_CLOSED`; the stream-connected callback takes it to `CONNECTED`. -/
theorem C16_callbacks_overwrite_latched_state :
    world_closed.socket.state < 0 ∧
    (_lwip_tcp_recv world_closed none ERR_OK).1.socket.state = STATE_PEER_CLOSED ∧
    ¬ ((_lwip_tcp_recv world_closed none ERR_OK).1.socket.state < 0) ∧
    world_after_reset.socket.state < 0 ∧
    ¬ ((_lwip_tcp_recv world_after_reset none ERR_OK).1.socket.state < 0) ∧
    (_lwip_tcp_connected world_after_reset ERR_OK).1.socket.state = STATE_CONNECTED := by
  decide

/-- The steps that keep "handle or closed/error state, never both, never neither": creation,
`close`, the error callback with a negative code, the connected-check, and the
stream-connected and stream-received callbacks on a socket that still has its handle. -/
theorem handle_xor_error_kept (w : World) (h : handle_xor_error w.socket) :
    (∀ args new_pcb s, lwip_socket_make_new args new_pcb = Result.ok s → handle_xor_error s) ∧
    handle_xor_error (lwip_socket_close w).socket ∧
    (∀ err, err < 0 → handle_xor_error (_lwip_tcp_error w err).socket) ∧
    handle_xor_error (lwip_socket_check_connected w).1.socket ∧
    (w.socket.pcb ≠ none →
      (∀ err, handle_xor_error (_lwip_tcp_connected w err).1.socket) ∧
      (∀ p err, handle_xor_error (_lwip_tcp_recv w p err).1.socket)) := by
  have hNEW : ¬ STATE_NEW < 0 := by decide
  have hCON : ¬ STATE_CONNECTED < 0 := by decide
  have hPC : ¬ STATE_PEER_CLOSED < 0 := by decide
  have hBADF : _ERR_BADF < 0 := by decide
  refine ⟨?_, ?_, ?_, ?_, ?_⟩
  · intro args new_pcb s hs
    unfold lwip_socket_make_new at hs
    simp only [] at hs
    split at hs
    · simp at hs
    · cases new_pcb with
      | none => simp at hs
      | some pcb =>
        simp only [Result.ok.injEq] at hs
        subst hs
        exact Or.inl ⟨by simp, hNEW⟩
  · cases hp : w.socket.pcb with
    | none =>
      have hc : lwip_socket_close w = w := by simp [lwip_socket_close, hp]
      rw [hc]; exact h
    | some pcb =>
      refine Or.inr ⟨close_pcb_none w, ?_⟩
      simp only [lwip_socket_close, hp, close_release_socket]
      exact hBADF
  · intro err herr
    exact Or.inr ⟨rfl, herr⟩
  · unfold lwip_socket_check_connected
    cases hp : w.socket.pcb with
    | some pcb => exact h
    | none =>
      simp only []
      cases error_lookup w.pre141 (-w.socket.state) with
      | none => exact h
      | some e => exact Or.inr ⟨hp, hBADF⟩
  · intro hp
    refine ⟨fun err => Or.inl ⟨hp, hCON⟩, fun p err => ?_⟩
    have hs : ¬ w.socket.state < 0 := by
      rcases h with h | h
      · exact h.2
      · exact absurd h.1 hp
    cases p with
    | none =>
      simp only [_lwip_tcp_recv]
      rw [(exec_user_callback_rest _).1]
      exact Or.inl ⟨hp, hPC⟩
    | some b =>
      simp only [_lwip_tcp_recv]
      split
      · exact Or.inl ⟨hp, hs⟩
      · rw [(exec_user_callback_rest _).1]
        exact Or.inl ⟨hp, hs⟩

/-! ## Acknowledging what was read -/

theorem acks_append (a b : List Call) : acks (a ++ b) = acks a ++ acks b := by
  induction a with
  | nil => rfl
  | cons c rest ih => cases c <;> simp [acks, ih]

theorem tcp_receive_copy_acks (w : World) (pcb : pcb_t) (B : List byte) (k : Nat)
    (h : Draining w pcb B k) (hk : k ≤ B.length) (hB : B.length < 65536) (len : Nat) :
    acks (tcp_receive_copy w len).1.calls =
      acks w.calls ++ [((B.drop (B.length - k)).take len).length] := by
  obtain ⟨ht, hp, hs, hi, hl⟩ := h
  have hcopy : u16 (if k ≥ len then (len : Int) else (k : Int)) = min len k := by
    split
    · rw [u16_of_lt len (by omega)]; omega
    · rw [u16_of_lt k (by omega)]; omega
  have hoff : u16 ((B.length : Int) - k) = B.length - k := u16_sub_of_le _ _ hk hB
  have hlen : ((B.drop (B.length - k)).take (min len k)).length =
      ((B.drop (B.length - k)).take len).length := by
    simp only [List.length_take, List.length_drop]
    omega
  simp only [tcp_receive_copy, hp, hi, pbuf.tot_len, hl, pbuf_copy_partial, hcopy, hoff]
  rw [hlen]
  by_cases hgt : k > len
  · simp [hgt, World.log, World.setSocket, acks_append, acks]
  · simp [hgt, World.log, World.setSocket, acks_append, acks]

/-- C21, as the claim states it, fails on a read that leaves a remainder: `recv(2)` on a
buffer of five bytes keeps three bytes in the inbox and still calls `tcp_recved` with 2. -/
theorem C21_counterexample_ack_on_short_read :
    (lwip_socket_recv world_five_bytes 2).2 = Result.ok [1, 2] ∧
    (lwip_socket_recv world_five_bytes 2).1.socket.incoming =
      some (incoming_t.pbuf ⟨[1, 2, 3, 4, 5]⟩) ∧
    (lwip_socket_recv world_five_bytes 2).1.socket.leftover_count = 3 ∧
    (lwip_socket_recv world_five_bytes 2).1.calls =
      [Call.tcp_recved ⟨7, tcp_state.ESTABLISHED⟩ 2] := by
  decide

/-- C21 (amended): every stream `recv` that returns data from the inbox informs the engine,
on that very call, of exactly the number of bytes it returned: on a call that leaves a
remainder in the inbox as well as on the call that empties it. -/
theorem C21_every_recv_acknowledges_what_it_returns (w : World) (pcb : pcb_t) (B : List byte)
    (k len : Nat)
    (h : Draining w pcb B k) (hk : k ≤ B.length) (hB : B.length < 65536) :
    (lwip_socket_recv w len).2 = Result.ok ((B.drop (B.length - k)).take len) ∧
    acks (lwip_socket_recv w len).1.calls =
      acks w.calls ++ [((B.drop (B.length - k)).take len).length] ∧
    (len < k → (lwip_socket_recv w len).1.socket.incoming = some (incoming_t.pbuf ⟨B⟩)) ∧
    (k ≤ len → (lwip_socket_recv w len).1.socket.incoming = none) := by
  rw [recv_draining_eq w pcb B k h len]
  obtain ⟨r1, r2, r3⟩ := tcp_receive_copy_draining w pcb B k h hk hB len
  exact ⟨r1, tcp_receive_copy_acks w pcb B k h hk hB len, fun hlt => (r2 hlt).2.2.2.1, r3⟩

theorem C21_every_recv_acknowledges_what_it_returns_witness :
    acks (lwip_socket_recv world_five_bytes 2).1.calls = [2] ∧
    (lwip_socket_recv world_five_bytes 2).1.socket.incoming =
      some (incoming_t.pbuf ⟨[1, 2, 3, 4, 5]⟩) :=
  have h := C21_every_recv_acknowledges_what_it_returns world_five_bytes
    ⟨7, tcp_state.ESTABLISHED⟩ [1, 2, 3, 4, 5] 5 2 ⟨rfl, rfl, by decide, rfl, rfl⟩
    (by decide) (by decide)
  ⟨h.2.1, h.2.2.1 (by decide)⟩

/-! ## `accept` -/

/-- C22: on a listener (stream socket whose handle is in `LISTEN`) whose pending slot holds
the handle `h`, `accept` returns at once a new stream socket with handle `h`, state
`CONNECTED`, an empty inbox, partial-consume count 0, no user callback and the listener's
timeout; the listener's slot is empty afterwards and its other fields (handle and state
among them) are unchanged. -/
theorem C22_accept_hands_over_pending_handle (w : World) (listener h : pcb_t)
    (remote_ip : ip_addr_t) (remote_port : Nat)
    (htype : w.socket.type = MOD_NETWORK_SOCK_STREAM)
    (hpcb : w.socket.pcb = some listener)
    (hlisten : listener.state = tcp_state.LISTEN)
    (hpending : w.socket.incoming = some (incoming_t.connection h)) :
    (lwip_socket_accept w remote_ip remote_port).2 =
      Result.ok ({ domain := MOD_NETWORK_AF_INET, type := MOD_NETWORK_SOCK_STREAM,
                   pcb := some h, incoming := none, callback := none, peer := 0, peer_port := 0,
                   timeout := w.socket.timeout, leftover_count := 0,
                   state := STATE_CONNECTED }, remote_ip, remote_port) ∧
    (lwip_socket_accept w remote_ip remote_port).1.socket =
      { w.socket with incoming := none } ∧
    (lwip_socket_accept w remote_ip remote_port).1.socket.pcb = some listener ∧
    (lwip_socket_accept w remote_ip remote_port).1.socket.state = w.socket.state ∧
    (lwip_socket_accept w remote_ip remote_port).1.calls =
      w.calls ++ [Call.tcp_arg h, Call.tcp_err h,
        Call.tcp_recv h recv_handler._lwip_tcp_recv, Call.tcp_accepted listener] := by
  have hacc : lwip_socket_accept w remote_ip remote_port =
      accept_take w listener remote_ip remote_port := by
    simp [lwip_socket_accept, hpcb, htype, hlisten, hpending]
  rw [hacc]
  simp [accept_take, hpending, World.setSocket, World.log, hpcb]

theorem C22_accept_hands_over_pending_handle_witness :
    (lwip_socket_accept
      (world_of (listener_socket (some (incoming_t.connection ⟨11, tcp_state.SYN_RCVD⟩))))
      77 4000).1.socket.incoming = none ∧
    (lwip_socket_accept
      (world_of (listener_socket (some (incoming_t.connection ⟨11, tcp_state.SYN_RCVD⟩))))
      77 4000).1.socket.pcb = some ⟨3, tcp_state.LISTEN⟩ :=
  have h := C22_accept_hands_over_pending_handle
    (world_of (listener_socket (some (incoming_t.connection ⟨11, tcp_state.SYN_RCVD⟩))))
    ⟨3, tcp_state.LISTEN⟩ ⟨11, tcp_state.SYN_RCVD⟩ 77 4000 rfl rfl rfl rfl
  ⟨by rw [h.2.1], h.2.2.1⟩

/-! ## The interface registry -/

theorem lwip_addif_create_ok (r : Registry) (vifnum : Int) (ip mask gw : ip_addr_t)
    (t : ip_text) :
    ∃ obj, (lwip_addif_create r vifnum ip mask gw t).2 = Result.ok obj ∧
      (lwip_addif_create r vifnum ip mask gw t).1.lwip_ether_objs = r.lwip_ether_objs ++ [obj] ∧
      obj.vif_id = vifnum ∧
      obj.ip = (if !ip4_addr_isany_val ip then ip
        else match ipaddr_aton t with
          | some a => a
          | none => IP4_ADDR 192 168 0 55) :=
  ⟨_, rfl, rfl, rfl, rfl⟩

/-- What `lwip_addif` does, by cases: it fails and leaves the registry as it was, or it
appends one interface. -/
theorem lwip_addif_cases (r : Registry) (ip mask gw : ip_addr_t) :
    ((∃ e, (lwip_addif r ip mask gw).2 = Result.value_error e) ∧
      (lwip_addif r ip mask gw).1 = r) ∨
    (∃ obj, (lwip_addif r ip mask gw).2 = Result.ok obj ∧
      lwip_ether_objs_count r < ETHER_MAX ∧
      (lwip_addif r ip mask gw).1.lwip_ether_objs = r.lwip_ether_objs ++ [obj] ∧
      obj.ip = (if !ip4_addr_isany_val ip then ip
        else match ipaddr_aton (lwip_find_ip r (ip4addr_ntoa_r ip) ip_text.empty).2 with
          | some a => a
          | none => IP4_ADDR 192 168 0 55)) := by
  unfold lwip_addif
  by_cases hmax : lwip_ether_objs_count r ≥ ETHER_MAX
  · rw [if_pos hmax]
    exact Or.inl ⟨⟨_, rfl⟩, rfl⟩
  · rw [if_neg hmax]
    simp only []
    by_cases hf : (lwip_find_ip r (ip4addr_ntoa_r ip) ip_text.empty).1 < 0
    · rw [if_pos hf]
      by_cases hn : lwip_find_next_noip r r.noip_off < 0
      · rw [if_pos hn]
        exact Or.inl ⟨⟨_, rfl⟩, rfl⟩
      · rw [if_neg hn]
        exact Or.inr ⟨_, rfl, by omega, rfl, rfl⟩
    · rw [if_neg hf]
      exact Or.inr ⟨_, rfl, by omega, rfl, rfl⟩

/-- C23: `lwip_addif` called when `ETHER_MAX` (4) interfaces are registered fails with the
configuration error and leaves the registry, table and count included, as it was; a
successful call adds exactly one interface, a failing call none; so the count never grows
beyond `ETHER_MAX`. -/
theorem C23_interface_count_bounded (r : Registry) (ip mask gw : ip_addr_t) :
    (ETHER_MAX ≤ lwip_ether_objs_count r →
      lwip_addif r ip mask gw = (r, Result.value_error ValueError.max_interfaces)) ∧
    (∀ obj, (lwip_addif r ip mask gw).2 = Result.ok obj →
      lwip_ether_objs_count (lwip_addif r ip mask gw).1 = lwip_ether_objs_count r + 1) ∧
    ((∀ obj, (lwip_addif r ip mask gw).2 ≠ Result.ok obj) →
      (lwip_addif r ip mask gw).1 = r) ∧
    (lwip_ether_objs_count r ≤ ETHER_MAX →
      lwip_ether_objs_count (lwip_addif r ip mask gw).1 ≤ ETHER_MAX) := by
  refine ⟨?_, ?_, ?_, ?_⟩
  · intro hmax
    simp [lwip_addif, hmax]
  · intro obj hok
    rcases lwip_addif_cases r ip mask gw with ⟨⟨e, he⟩, _⟩ | ⟨o, _, _, hobjs, _⟩
    · rw [he] at hok; exact absurd hok (by simp)
    · simp [lwip_ether_objs_count, hobjs]
  · intro hfail
    rcases lwip_addif_cases r ip mask gw with ⟨_, hr⟩ | ⟨o, ho, _⟩
    · exact hr
    · exact absurd ho (hfail o)
  · intro hle
    rcases lwip_addif_cases r ip mask gw with ⟨_, hr⟩ | ⟨o, _, hlt, hobjs, _⟩
    · rw [hr]; exact hle
    · simp only [lwip_ether_objs_count, hobjs, List.length_append, List.length_singleton]
      unfold lwip_ether_objs_count at hlt
      omega

theorem C23_interface_count_bounded_witness :
    lwip_addif registry_full 5 6 7 = (registry_full, Result.value_error ValueError.max_interfaces) ∧
    lwip_ether_objs_count (lwip_addif registry_one_vif 5 6 7).1 = 1 :=
  ⟨(C23_interface_count_bounded registry_full 5 6 7).1 (by decide),
    (C23_interface_count_bounded registry_one_vif 5 6 7).2.1
      { vif_id := 0, ip := 5, mask := 6, gw := 7 } (by decide)⟩

/-! ### When `connect` reaches the socket

A socket leaves `STATE_NEW` through `connect` only after the interface step has passed, and
then an interface is registered; no call removes an interface again. -/

theorem lwip_addif_count_le (r : Registry) (ip mask gw : ip_addr_t) :
    lwip_ether_objs_count r ≤ lwip_ether_objs_count (lwip_addif r ip mask gw).1 := by
  rcases lwip_addif_cases r ip mask gw with ⟨_, hr⟩ | ⟨o, _, _, hobjs, _⟩
  · rw [hr]
  · simp [lwip_ether_objs_count, hobjs]

theorem connect_add_interface_registered (r : Registry) (h : lwip_ether_objs_count r ≠ 0) :
    connect_add_interface r = (r, none) := by
  simp [connect_add_interface, h]

theorem connect_add_interface_count_le (r : Registry) :
    lwip_ether_objs_count r ≤ lwip_ether_objs_count (connect_add_interface r).1 := by
  unfold connect_add_interface
  by_cases h : lwip_ether_objs_count r = 0
  · rw [if_pos h]
    have hle := lwip_addif_count_le r (IP4_ADDR 0 0 0 0) (IP4_ADDR 255 255 255 0)
      (IP4_ADDR 255 255 255 0)
    cases hadd : lwip_addif r (IP4_ADDR 0 0 0 0) (IP4_ADDR 255 255 255 0)
        (IP4_ADDR 255 255 255 0) with
    | mk r1 res =>
      rw [hadd] at hle
      cases res <;> exact hle
  · rw [if_neg h]

/-- When the interface step of `connect` passes, an interface is registered afterwards. -/
theorem connect_add_interface_passed (r : Registry) (h : (connect_add_interface r).2 = none) :
    lwip_ether_objs_count (connect_add_interface r).1 ≠ 0 := by
  by_cases hc : lwip_ether_objs_count r = 0
  · rcases lwip_addif_cases r (IP4_ADDR 0 0 0 0) (IP4_ADDR 255 255 255 0)
      (IP4_ADDR 255 255 255 0) with ⟨⟨e, he⟩, _⟩ | ⟨o, ho, _, hobjs, _⟩
    · exfalso
      cases hadd : lwip_addif r (IP4_ADDR 0 0 0 0) (IP4_ADDR 255 255 255 0)
          (IP4_ADDR 255 255 255 0) with
      | mk r1 res =>
        rw [hadd] at he
        simp only at he
        subst he
        simp [connect_add_interface, hc, hadd] at h
    · cases hadd : lwip_addif r (IP4_ADDR 0 0 0 0) (IP4_ADDR 255 255 255 0)
          (IP4_ADDR 255 255 255 0) with
      | mk r1 res =>
        rw [hadd] at ho hobjs
        simp only at ho hobjs
        subst ho
        have hcai : connect_add_interface r = (r1, none) := by
          simp only [connect_add_interface, hc, if_true, hadd]
        rw [hcai]
        simp [lwip_ether_objs_count, hobjs]
  · rw [connect_add_interface_registered r hc]
    exact hc

/-- The registry after `connect`: as it was when the handle is null, and as the interface
step leaves it otherwise. -/
theorem connect_registry (r : Registry) (w : World) (dest : ip_addr_t) (port : Nat) :
    (lwip_socket_connect r w dest port).1 =
      (if w.socket.pcb = none then r else (connect_add_interface r).1) := by
  unfold lwip_socket_connect
  cases hp : w.socket.pcb with
  | none => simp
  | some pcb =>
    cases hci : connect_add_interface r with
    | mk r1 o =>
      cases o with
      | some e => simp
      | none =>
        simp only [reduceCtorEq, if_false]
        repeat' split
        all_goals rfl

/-- No `connect` removes an interface. -/
theorem connect_count_le (r : Registry) (w : World) (dest : ip_addr_t) (port : Nat) :
    lwip_ether_objs_count r ≤ lwip_ether_objs_count (lwip_socket_connect r w dest port).1 := by
  rw [connect_registry]
  split
  · exact Nat.le_refl _
  · exact connect_add_interface_count_le r

/-- As long as `connect` leaves the registry without interface, it has left the socket and
the engine alone: the state of a socket moves away from `STATE_NEW` through `connect` only
once an interface is registered. -/
theorem connect_without_interface (r : Registry) (w : World) (dest : ip_addr_t) (port : Nat)
    (h : lwip_ether_objs_count (lwip_socket_connect r w dest port).1 = 0) :
    (lwip_socket_connect r w dest port).2.1 = w := by
  rw [connect_registry] at h
  cases hp : w.socket.pcb with
  | none => simp [lwip_socket_connect, hp]
  | some pcb =>
    rw [hp] at h
    simp only [reduceCtorEq, if_false] at h
    cases hci : connect_add_interface r with
    | mk r1 o =>
      cases o with
      | some e => simp [lwip_socket_connect, hp, hci]
      | none =>
        exact absurd h (connect_add_interface_passed r (by rw [hci]))

/-- The registry after `bind`: as the interface step of `bind` leaves it. -/
theorem bind_registry (isbroadcast : ip_addr_t → lwip_ether_obj_t → Bool) (r : Registry)
    (w : World) (bind_addr : ip_addr_t) (port : Nat) :
    (lwip_socket_bind isbroadcast r w bind_addr port).1 =
      (bind_add_interface isbroadcast r bind_addr).1 := by
  unfold lwip_socket_bind
  cases hbi : bind_add_interface isbroadcast r bind_addr with
  | mk r1 o =>
    cases o with
    | some e => rfl
    | none =>
      simp only []
      repeat' split
      all_goals rfl

/-- No `bind` removes an interface. -/
theorem bind_count_le (isbroadcast : ip_addr_t → lwip_ether_obj_t → Bool) (r : Registry)
    (w : World) (bind_addr : ip_addr_t) (port : Nat) :
    lwip_ether_objs_count r ≤
      lwip_ether_objs_count (lwip_socket_bind isbroadcast r w bind_addr port).1 := by
  rw [bind_registry]
  unfold bind_add_interface
  split
  · have hle := lwip_addif_count_le r bind_addr (IP4_ADDR 255 255 255 0) (IP4_ADDR 0 0 0 0)
    cases hadd : lwip_addif r bind_addr (IP4_ADDR 255 255 255 0) (IP4_ADDR 0 0 0 0) with
    | mk r1 res =>
      rw [hadd] at hle
      cases res <;> exact hle
  · exact Nat.le_refl _

/-- The socket object is the same after `bind` as before: `bind` takes no socket out of
`STATE_NEW`. -/
theorem bind_keeps_socket (isbroadcast : ip_addr_t → lwip_ether_obj_t → Bool) (r : Registry)
    (w : World) (bind_addr : ip_addr_t) (port : Nat) :
    (lwip_socket_bind isbroadcast r w bind_addr port).2.1.socket = w.socket := by
  have hengine : ∀ c : Call, (bind_engine w c).1.socket = w.socket := by
    intro c
    have hs := next_status_socket (w.log c)
    unfold bind_engine
    simp only []
    repeat' split
    all_goals exact hs
  unfold lwip_socket_bind
  cases hbi : bind_add_interface isbroadcast r bind_addr with
  | mk r1 o =>
    cases o with
    | some e => rfl
    | none =>
      simp only []
      repeat' split
      all_goals first | rfl | exact hengine _

/-- The step by which `connect` turns away a stream socket that is not in `STATE_NEW`,
whatever the registry: the world is left as it was. -/
theorem connect_not_new_keeps_world (r : Registry) (w : World) (pcb : pcb_t)
    (dest : ip_addr_t) (port : Nat)
    (htype : w.socket.type = MOD_NETWORK_SOCK_STREAM)
    (hpcb : w.socket.pcb = some pcb)
    (hstate : w.socket.state ≠ STATE_NEW) :
    (lwip_socket_connect r w dest port).2.1 = w := by
  cases hci : connect_add_interface r with
  | mk r1 o =>
    cases o with
    | some e => simp [lwip_socket_connect, hpcb, hci]
    | none =>
      simp only [lwip_socket_connect, hpcb, hci, htype, if_true, if_pos hstate]
      split <;> rfl

/-- With an interface registered, `connect` on a stream socket with its handle whose state is
not `STATE_NEW` changes nothing and raises `EALREADY` or `EINPROGRESS`. -/
theorem connect_refused_registered (r : Registry) (w : World) (pcb : pcb_t)
    (dest : ip_addr_t) (port : Nat)
    (htype : w.socket.type = MOD_NETWORK_SOCK_STREAM)
    (hpcb : w.socket.pcb = some pcb)
    (hstate : w.socket.state ≠ STATE_NEW)
    (hiface : lwip_ether_objs_count r ≠ 0) :
    lwip_socket_connect r w dest port =
      (r, w, Result.error
        (if w.socket.state = STATE_CONNECTED then EALREADY else EINPROGRESS)) := by
  simp only [lwip_socket_connect, hpcb, connect_add_interface_registered r hiface, htype,
    if_true, if_pos hstate]
  by_cases hc : w.socket.state = STATE_CONNECTED
  · rw [if_pos hc, if_pos hc]
  · rw [if_neg hc, if_neg hc]

/-- A `connect` that follows the `connect` that took the socket out of `STATE_NEW` is turned
away with `EALREADY` or `EINPROGRESS`, whatever the registry was at the start: the first call
has registered an interface. -/
theorem connect_after_connect_refused (r : Registry) (w : World) (pcb1 : pcb_t)
    (dest dest2 : ip_addr_t) (port port2 : Nat)
    (hnew : w.socket.state = STATE_NEW)
    (htype1 : (lwip_socket_connect r w dest port).2.1.socket.type = MOD_NETWORK_SOCK_STREAM)
    (hpcb1 : (lwip_socket_connect r w dest port).2.1.socket.pcb = some pcb1)
    (hstate1 : (lwip_socket_connect r w dest port).2.1.socket.state ≠ STATE_NEW) :
    lwip_socket_connect (lwip_socket_connect r w dest port).1
        (lwip_socket_connect r w dest port).2.1 dest2 port2 =
      ((lwip_socket_connect r w dest port).1, (lwip_socket_connect r w dest port).2.1,
        Result.error
          (if (lwip_socket_connect r w dest port).2.1.socket.state = STATE_CONNECTED
            then EALREADY else EINPROGRESS)) := by
  apply connect_refused_registered _ _ pcb1 dest2 port2 htype1 hpcb1 hstate1
  intro hcount
  have hw := connect_without_interface r w dest port hcount
  rw [hw] at hstate1
  exact hstate1 hnew

/-- C13: on a stream socket with its handle whose state is not `NEW`, in a registry that
holds an interface (a socket leaves `NEW` only once one is registered, and none is ever
removed), `connect` fails at once: with `EALREADY` if the state is `CONNECTED`, with
`EINPROGRESS` for every other state.  The registry and the world are left as they were: no
`tcp_connect` and no `tcp_recv` registration reaches the engine, and the state, the peer
address and the peer port of the socket are unchanged. -/
theorem C13_connect_refused_unless_new (r : Registry) (w : World) (pcb : pcb_t)
    (dest : ip_addr_t) (port : Nat)
    (htype : w.socket.type = MOD_NETWORK_SOCK_STREAM)
    (hpcb : w.socket.pcb = some pcb)
    (hstate : w.socket.state ≠ STATE_NEW)
    (hiface : lwip_ether_objs_count r ≠ 0) :
    lwip_socket_connect r w dest port =
      (r, w, Result.error (if w.socket.state = STATE_CONNECTED then EALREADY else EINPROGRESS)) ∧
    (w.socket.state = STATE_CONNECTED →
      (lwip_socket_connect r w dest port).2.2 = Result.error EALREADY) ∧
    (w.socket.state ≠ STATE_CONNECTED →
      (lwip_socket_connect r w dest port).2.2 = Result.error EINPROGRESS) ∧
    (lwip_socket_connect r w dest port).2.1.calls = w.calls ∧
    (lwip_socket_connect r w dest port).2.1.socket.state = w.socket.state ∧
    (lwip_socket_connect r w dest port).2.1.socket.peer = w.socket.peer ∧
    (lwip_socket_connect r w dest port).2.1.socket.peer_port = w.socket.peer_port := by
  rw [connect_refused_registered r w pcb dest port htype hpcb hstate hiface]
  refine ⟨rfl, ?_, ?_, rfl, rfl, rfl, rfl⟩
  · intro hc
    simp [hc]
  · intro hc
    simp [hc]

theorem C13_connect_refused_unless_new_witness :
    lwip_socket_connect registry_connected world_connected 78 81 =
      (registry_connected, world_connected, Result.error EALREADY) ∧
    lwip_socket_connect registry_connected world_peer_closed 78 81 =
      (registry_connected, world_peer_closed, Result.error EINPROGRESS) ∧
    lwip_socket_connect registry_connected world_connecting 78 81 =
      (registry_connected, world_connecting, Result.error EINPROGRESS) :=
  ⟨(C13_connect_refused_unless_new registry_connected world_connected
      ⟨7, tcp_state.CLOSED⟩ 78 81 (by decide) (by decide) (by decide) (by decide)).1,
    (C13_connect_refused_unless_new registry_connected world_peer_closed
      ⟨7, tcp_state.CLOSED⟩ 78 81 (by decide) (by decide) (by decide) (by decide)).1,
    (C13_connect_refused_unless_new registry_connected world_connecting
      ⟨7, tcp_state.CLOSED⟩ 78 81 (by decide) (by decide) (by decide) (by decide)).1⟩

/-! ### What `lwip_find_ip` finds in the store for the hint 0.0.0.0 -/

/-- C25: on a store whose only vif has an `ip` entry, `lwip_find_next_noip(0)` returns 1,
the index of a vif that does not exist, instead of -1; on a store without any vif it returns
0; and `lwip_addif` then creates an interface on that index. -/
theorem C25_find_next_noip_returns_index_past_last_vif :
    registry_vif_with_ip.vifs.length = 1 ∧
    count_vifs registry_vif_with_ip.vifs = 1 ∧
    lwip_find_next_noip registry_vif_with_ip 0 = 1 ∧
    lwip_find_next_noip { registry_vif_with_ip with vifs := [] } 0 = 0 ∧
    (lwip_addif registry_vif_with_ip (IP4_ADDR 10 0 0 9) (IP4_ADDR 255 255 255 0) 0).2 =
      Result.ok { vif_id := 1, ip := IP4_ADDR 10 0 0 9, mask := IP4_ADDR 255 255 255 0,
                  gw := 0 } := by
  decide

/-- C26: `recv` on a stream socket fresh from the constructor (state `NEW`, blocking), and
on one in state `CONNECTING` with a bounded timeout, reaches `assert(socket->state < 0)` with
a state that is not negative, without any pump. -/
theorem C26_recv_before_connect_fails_assertion :
    world_fresh.socket.state = STATE_NEW ∧ world_fresh.socket.pcb ≠ none ∧
    world_fresh.socket.timeout = -1 ∧
    lwip_socket_recv world_fresh 10 = (world_fresh, Result.fault Fault.assert_failed) ∧
    lwip_socket_recv (world_of (stream_socket none STATE_CONNECTING 500)) 10 =
      (world_of (stream_socket none STATE_CONNECTING 500), Result.fault Fault.assert_failed) := by
  decide

/-- C27: `connect` on a fresh blocking stream socket, when the first pump of the wait brings
the stream-connected callback followed by the stream-received callback with a null buffer,
ends its wait in state `PEER_CLOSED` (3) and looks `error_lookup_table` up at index -3. -/
theorem C27_connect_indexes_table_with_peer_closed :
    (lwip_socket_connect registry_one_vif world_peer_closes_at_once 77 80).2.1.socket.state =
      STATE_PEER_CLOSED ∧
    (lwip_socket_connect registry_one_vif world_peer_closes_at_once 77 80).2.2 =
      Result.fault Fault.index_out_of_range ∧
    error_lookup false (-STATE_PEER_CLOSED) = none ∧
    connect_finish (lwip_socket_connect registry_one_vif world_peer_closes_at_once 77 80).2.1 =
      ((lwip_socket_connect registry_one_vif world_peer_closes_at_once 77 80).2.1,
        Result.fault Fault.index_out_of_range) := by
  decide

/-- C28: on a store where vif 0 has no `ip` entry and vif 1 has the entry 10.0.0.5,
`lwip_addif` for 10.0.0.5, and `lwip_addif` for 0.0.0.0, attach the new interface to vif 0:
`lwip_find_ip` returns 0 for "found", and `lwip_addif` takes that for the vif number. -/
theorem C28_addif_attaches_to_vif_0 :
    xenbus_read_ip registry_ip_on_vif_1 0 = none ∧
    xenbus_read_ip registry_ip_on_vif_1 1 = some (ip_text.dotted (IP4_ADDR 10 0 0 5)) ∧
    lwip_find_ip registry_ip_on_vif_1 (ip4addr_ntoa_r (IP4_ADDR 10 0 0 5)) ip_text.empty =
      (0, ip_text.dotted (IP4_ADDR 10 0 0 5)) ∧
    (lwip_addif registry_ip_on_vif_1 (IP4_ADDR 10 0 0 5) (IP4_ADDR 255 255 255 0) 0).2 =
      Result.ok { vif_id := 0, ip := IP4_ADDR 10 0 0 5, mask := IP4_ADDR 255 255 255 0,
                  gw := 0 } ∧
    (lwip_addif registry_ip_on_vif_1 (IP4_ADDR 0 0 0 0) (IP4_ADDR 255 255 255 0) 0).2 =
      Result.ok { vif_id := 0, ip := IP4_ADDR 10 0 0 5, mask := IP4_ADDR 255 255 255 0,
                  gw := 0 } := by
  decide

/-- C30: for each named engine error, the errno that the pre-1.4.1 layout gives at the
error's old number is the errno that the newer layout gives at its new number, and both
layouts have an entry there; both translate `_ERR_BADF` (-16) to `EBADF`. -/
theorem C30_layouts_agree_on_named_errors (e : lwip_err) :
    error_lookup true (-(lwip_err.code true e)) = error_lookup false (-(lwip_err.code false e)) ∧
    (error_lookup true (-(lwip_err.code true e))).isSome = true ∧
    lwip_err.code true lwip_err._ERR_BADF = _ERR_BADF ∧
    lwip_err.code false lwip_err._ERR_BADF = _ERR_BADF ∧
    error_lookup true (-_ERR_BADF) = some EBADF ∧
    error_lookup false (-_ERR_BADF) = some EBADF ∧
    (∀ p, lwip_err.code p lwip_err.ERR_ARG = ERR_ARG p ∧
      lwip_err.code p lwip_err.ERR_IF = ERR_IF p) := by
  refine ⟨?_, ?_, by decide, by decide, by decide, by decide, ?_⟩
  · cases e <;> decide
  · cases e <;> decide
  · intro p
    cases p <;> exact ⟨rfl, rfl⟩

/-! ## Reading after the peer's close -/

theorem tcp_receive_copy_keeps (w : World) (pcb : pcb_t) (B : List byte) (k : Nat)
    (h : Draining w pcb B k) (len : Nat) :
    (tcp_receive_copy w len).1.socket.state = w.socket.state ∧
    (tcp_receive_copy w len).1.socket.type = w.socket.type ∧
    (tcp_receive_copy w len).1.socket.pcb = w.socket.pcb := by
  obtain ⟨_, hp, _, hi, hl⟩ := h
  simp only [tcp_receive_copy, hp, hi, pbuf.tot_len, hl]
  by_cases hgt : k > len
  · simp [hgt, World.log, World.setSocket, hp]
  · simp [hgt, World.log, World.setSocket, hp]

theorem recv_peer_closed_empty (v : World) (pcb : pcb_t) (n : Nat)
    (htype : v.socket.type = MOD_NETWORK_SOCK_STREAM) (hpcb : v.socket.pcb = some pcb)
    (hstate : v.socket.state = STATE_PEER_CLOSED) (hinbox : v.socket.incoming = none) :
    lwip_socket_recv v n = (v, Result.ok []) := by
  have hs : ¬ v.socket.state < 0 := by rw [hstate]; decide
  simp only [lwip_socket_recv, lwip_socket_check_connected, hpcb, htype, if_true,
    lwip_tcp_receive, STREAM_ERROR_CHECK, hs, if_false, hinbox]
  by_cases ht : v.socket.timeout = 0
  · simp [ht, hstate]
  · have hne : STATE_PEER_CLOSED ≠ STATE_CONNECTED := by decide
    simp [ht, tcp_receive_wait, hne, hstate, hinbox]

/-- C29: on a stream socket with its handle in state `PEER_CLOSED` whose inbox still holds a
buffer with `k` unread bytes, `recv` returns the next unread bytes, up to `maxLength` (not the
empty end-of-stream result, unless `maxLength` is 0), keeps the rest in the inbox and leaves
the state `PEER_CLOSED`; only once a `recv` has emptied the inbox does `recv` return the empty
result; and a sequence of reads returns the unread bytes in order. -/
theorem C29_buffered_data_read_before_end_of_stream (w : World) (pcb : pcb_t) (B : List byte)
    (k len : Nat)
    (h : Draining w pcb B k)
    (hstate : w.socket.state = STATE_PEER_CLOSED)
    (hk : k ≤ B.length) (hB : B.length < 65536) :
    (lwip_socket_recv w len).2 = Result.ok ((B.drop (B.length - k)).take len) ∧
    (0 < len → 0 < k → (lwip_socket_recv w len).2 ≠ Result.ok []) ∧
    (lwip_socket_recv w len).1.socket.state = STATE_PEER_CLOSED ∧
    (len < k → Draining (lwip_socket_recv w len).1 pcb B (k - len)) ∧
    (k ≤ len → (lwip_socket_recv w len).1.socket.incoming = none ∧
      ∀ n, (lwip_socket_recv (lwip_socket_recv w len).1 n).2 = Result.ok []) ∧
    (∀ lens : List Nat, (∀ n ∈ lens, 0 < n) →
      (recv_seq w lens).2 = (B.drop (B.length - k)).take lens.sum) := by
  obtain ⟨r1, r2, r3⟩ := tcp_receive_copy_draining w pcb B k h hk hB len
  obtain ⟨k1, k2, k3⟩ := tcp_receive_copy_keeps w pcb B k h len
  rw [recv_draining_eq w pcb B k h len]
  refine ⟨r1, ?_, by rw [k1, hstate], r2, ?_, ?_⟩
  · intro hlen hkpos
    rw [r1]
    intro hnil
    injection hnil with hnil
    have hl : ((B.drop (B.length - k)).take len).length = 0 := by rw [hnil]; rfl
    simp only [List.length_take, List.length_drop] at hl
    omega
  · intro hle
    refine ⟨r3 hle, fun n => ?_⟩
    rw [recv_peer_closed_empty (tcp_receive_copy w len).1 pcb n (by rw [k2, h.1])
      (by rw [k3, h.2.1]) (by rw [k1, hstate]) (r3 hle)]
  · intro lens hpos
    exact (recv_seq_draining lens w pcb B k h hk hB hpos).1

theorem C29_buffered_data_read_before_end_of_stream_witness :
    (lwip_socket_recv
      (world_of (stream_socket (some (incoming_t.pbuf ⟨[1, 2, 3]⟩)) STATE_PEER_CLOSED (-1)))
      8).2 = Result.ok [1, 2, 3] ∧
    (lwip_socket_recv (lwip_socket_recv
      (world_of (stream_socket (some (incoming_t.pbuf ⟨[1, 2, 3]⟩)) STATE_PEER_CLOSED (-1)))
      8).1 8).2 = Result.ok [] :=
  have h := C29_buffered_data_read_before_end_of_stream
    (world_of (stream_socket (some (incoming_t.pbuf ⟨[1, 2, 3]⟩)) STATE_PEER_CLOSED (-1)))
    ⟨7, tcp_state.ESTABLISHED⟩ [1, 2, 3] 3 8 ⟨rfl, rfl, by decide, rfl, rfl⟩ rfl
    (by decide) (by decide)
  ⟨h.1, (h.2.2.2.2.1 (by decide)).2 8⟩

end Modlwip
